import Mathlib

/-!
Verification development for the `thunder-so/cdk-webservice` repository.

The repository translates one configuration object (`WebServiceProps`) into a
graph of AWS resource declarations (VPC, ECS cluster, task definition, Fargate
service, load balancer, optional HTTPS wiring, optional CodePipeline, optional
EventBridge wiring) and generates shell build/deploy specifications as string
templates.

This file gives a shallow embedding of the configuration data model, the
resource-declaration control flow of `WebServiceStack` and its constructs, the
resource-name-prefix derivations, the generated CodeBuild build/deploy command
lists, and a small semantics for the effectful commands of those generated
scripts.  Theorems about the embedded definitions settle the specification
claims.

Sources embedded (current generation is the first document of each file):
- `src/stack/WebServiceStack.ts` - stack control flow and validation
- `src/stack/WebServiceProps.ts` / `src/unnamed/part_004` - the props model
- `src/lib/service.ts` - `ServiceConstruct` (resources, defaults, HTTPS gate)
- `src/unnamed/part_002` - `PipelineConstruct` (ECR, build/deploy projects)
- `src/lib/events.ts` - `EventsConstruct`
-/

set_option maxRecDepth 16384

namespace CdkWebService

/-! ## JavaScript string and truthiness helpers -/

/-- JS `s.substring(0, n)`: the first `n` characters of `s` (whole string when
`s` is shorter). -/
def jsSubstring0 (s : String) (n : Nat) : String :=
  ⟨s.data.take n⟩

/-- ASCII upper-case test, `65 ≤ c ≤ 90` (`A`-`Z`). -/
def isUpperAscii (c : Char) : Bool :=
  decide (65 ≤ c.toNat ∧ c.toNat ≤ 90)

/-- ASCII model of JS `toLowerCase` on one character: `A`-`Z` maps to
`a`-`z`, anything else is unchanged.  The JS `toLowerCase` is
Unicode-aware and also lowercases non-ASCII letters; this model agrees
with it exactly on ASCII input, so any statement that needs the model to
be faithful must restrict its strings to ASCII. -/
def jsCharToLower (c : Char) : Char :=
  if 65 ≤ c.toNat ∧ c.toNat ≤ 90 then Char.ofNat (c.toNat + 32) else c

/-- ASCII model of JS `s.toLowerCase()`: faithful on ASCII strings, see
`jsCharToLower` for the scope of the model. -/
def jsToLower (s : String) : String :=
  ⟨s.data.map jsCharToLower⟩

/-- Whether every character of `s` is outside `A`-`Z` ("entirely lower-case"
in the sense of the spec: no upper-case letter survives). -/
def allLowerStr (s : String) : Bool :=
  s.data.all fun c => !isUpperAscii c

/-- JS truthiness of an optional string: `undefined` and `""` are falsy. -/
def jsTruthyS (o : Option String) : Bool :=
  match o with
  | none => false
  | some s => !s.data.isEmpty

/-- JS `x || d` on an optional number: `undefined` and `0` are falsy and give
the default. -/
def jsOrNat (o : Option Nat) (d : Nat) : Nat :=
  match o with
  | none => d
  | some n => if n = 0 then d else n

/-! ## The configuration data model (`WebServiceProps`)

Embedded from `src/unnamed/part_004` (the current `WebServiceProps`, the
union of `PipelineProps`, `DomainProps`, `CloudFrontProps`, `AppProps` with a
`serviceProps` field).  Fields that no claim touches (CloudFront cache lists,
`dockerBuildArgs`, container `variables`/`secrets`, CodeBuild
`environment`/`secrets`, `buildSpecFilePath`, `outputDir`) are omitted; they
only feed attribute values of resources that the claims never mention. -/

/-- CPU architectures from `aws-cdk-lib/aws-ecs` used by the sources. -/
inductive CpuArch
  | x86_64
  | arm64
deriving DecidableEq, Repr

/-- The mandatory AWS account/region pair (`AppProps.env`). -/
structure AwsEnv where
  account : String
  region : String
deriving DecidableEq, Repr

/-- GitHub source binding (`PipelineProps.sourceProps`). -/
structure SourcePropsCfg where
  owner : Option String := none
  repo : Option String := none
  branchOrRef : Option String := none
deriving DecidableEq, Repr

/-- Fargate sizing and container options (`ServiceProps`). -/
structure ServicePropsCfg where
  architecture : Option CpuArch := none
  desiredCount : Option Nat := none
  cpu : Option Nat := none
  memorySize : Option Nat := none
  port : Option Nat := none
  dockerFile : Option String := none
deriving DecidableEq, Repr

/-- CodeBuild build options read by `PipelineConstruct` and the Nixpacks
branch of `ServiceConstruct` (`buildProps`). -/
structure BuildPropsCfg where
  buildSystem : Option String := none
  installcmd : Option String := none
  buildcmd : Option String := none
  startcmd : Option String := none
deriving DecidableEq, Repr

/-- The single deployment descriptor (`WebServiceProps`).  `env` is `Option`
because `WebServiceStack` guards `!props?.env` at runtime; the mandatory
string identifiers are plain strings where `""` models both `undefined` and
the empty string (both are JS-falsy, which is exactly what the stack tests). -/
structure WebServiceProps where
  env : Option AwsEnv := none
  application : String := ""
  service : String := ""
  environment : String := ""
  rootDir : Option String := none
  serviceProps : Option ServicePropsCfg := none
  buildProps : Option BuildPropsCfg := none
  domain : Option String := none
  globalCertificateArn : Option String := none
  regionalCertificateArn : Option String := none
  hostedZoneId : Option String := none
  accessTokenSecretArn : Option String := none
  sourceProps : Option SourcePropsCfg := none
  eventTarget : Option String := none
  debug : Bool := false
deriving DecidableEq, Repr

/-! ## Resource-name-prefix derivations -/

/-- Resource prefix of the current `ServiceConstruct`
(`src/lib/service.ts:33`):
each of application/service/environment truncated to 7 characters, joined
with `-`, the whole truncated to 23 characters and lower-cased. -/
def serviceResourceIdPfx (application service environment : String) : String :=
  jsToLower (jsSubstring0
    (jsSubstring0 application 7 ++ "-" ++ jsSubstring0 service 7 ++ "-" ++
      jsSubstring0 environment 7) 23)

/-- Resource prefix of `PipelineConstruct` (`src/unnamed/part_002:31`) -
textually the same derivation as `serviceResourceIdPfx`, embedded separately
so that agreement of the two constructs is a theorem, not an assumption. -/
def pipelineResourceIdPfx (application service environment : String) : String :=
  jsToLower (jsSubstring0
    (jsSubstring0 application 7 ++ "-" ++ jsSubstring0 service 7 ++ "-" ++
      jsSubstring0 environment 7) 23)

/-- Resource prefix of `EventsConstruct` (`src/lib/events.ts:21`) and of the
legacy `ServiceConstruct` generation (`src/lib/service.ts:241`):
`{application}-{service}-{environment}` truncated to 42 characters, with no
lower-casing. -/
def eventsResourceIdPfx (application service environment : String) : String :=
  jsSubstring0 (application ++ "-" ++ service ++ "-" ++ environment) 42

/-! ## Declared resources and the stack control flow -/

/-- One declared cloud resource, together with the attributes the claims are
about (names, ports, sizing, image references are carried; cosmetic
attributes are not). -/
inductive Res
  | vpc (name : String)
  | cluster (name : String)
  | logGroup (name : String)
  | taskDef (cpu : Nat) (memoryMiB : Nat) (arch : CpuArch)
  | container (name : String) (port : Nat)
  | fargateService (name : String) (desiredCount : Nat)
  | targetGroup (name : String) (port : Nat)
  | alb (name : String)
  | httpListener
  | httpsListener
  | httpRedirect
  | aliasRecord (recordName : String)
  | ecrRepo (name : String)
  | buildProject (name : String)
  | deployProject (name : String)
  | codePipeline (name : String)
  | eventsRule (name : String)
  | eventsLogGroup (name : String)
  | eventsRole (name : String)
  | eventBusTarget (busArn : String)
deriving DecidableEq, Repr

/-- HTTPS wiring resources: the HTTPS listener, the HTTP-to-HTTPS redirect
action and the Route53 alias record. -/
def Res.isHttpsWiring : Res → Bool
  | .httpsListener => true
  | .httpRedirect => true
  | .aliasRecord _ => true
  | _ => false

/-- Pipeline resources: ECR repository, build project, deploy project,
CodePipeline. -/
def Res.isPipelineRes : Res → Bool
  | .ecrRepo _ => true
  | .buildProject _ => true
  | .deployProject _ => true
  | .codePipeline _ => true
  | _ => false

/-- Event-notifier resources declared by `EventsConstruct`. -/
def Res.isEventRes : Res → Bool
  | .eventsRule _ => true
  | .eventsLogGroup _ => true
  | .eventsRole _ => true
  | .eventBusTarget _ => true
  | _ => false

/-- Resources declared by `ServiceConstruct` (`src/lib/service.ts:29-221`), in
declaration order: VPC, cluster, log group, task definition (with the `?? 256`
/ `?? 512` / `?? X86_64` defaults of lines 66-73), container (port `|| 3000`,
line 138), Fargate service (desired count `?? 1`, line 145), target group,
ALB, HTTP listener, and - only when `domain`, `hostedZoneId` and
`regionalCertificateArn` are all truthy (line 183) - the HTTPS listener, the
HTTP-to-HTTPS redirect and the alias record. -/
def serviceConstructResources (p : WebServiceProps) : List Res :=
  let pfx := serviceResourceIdPfx p.application p.service p.environment
  let port := jsOrNat (p.serviceProps.bind ServicePropsCfg.port) 3000
  let base : List Res :=
    [Res.vpc (pfx ++ "-vpc"),
     Res.cluster (pfx ++ "-cluster"),
     Res.logGroup ("/webservice/" ++ pfx ++ "-logs"),
     Res.taskDef ((p.serviceProps.bind ServicePropsCfg.cpu).getD 256)
       ((p.serviceProps.bind ServicePropsCfg.memorySize).getD 512)
       ((p.serviceProps.bind ServicePropsCfg.architecture).getD CpuArch.x86_64),
     Res.container (p.service ++ "-container") port,
     Res.fargateService (p.service ++ "-service")
       ((p.serviceProps.bind ServicePropsCfg.desiredCount).getD 1),
     Res.targetGroup (pfx ++ "-blue-tg") port,
     Res.alb pfx,
     Res.httpListener]
  if jsTruthyS p.domain && jsTruthyS p.hostedZoneId &&
      jsTruthyS p.regionalCertificateArn then
    base ++ [Res.httpsListener, Res.httpRedirect,
             Res.aliasRecord (p.domain.getD "")]
  else
    base

/-- Resources declared by `PipelineConstruct` (`src/unnamed/part_002:41-53`),
in declaration order: ECR repository, Docker build project, ECS deploy
project, CodePipeline. -/
def pipelineConstructResources (p : WebServiceProps) : List Res :=
  let pfx := pipelineResourceIdPfx p.application p.service p.environment
  [Res.ecrRepo (pfx ++ "-repo"),
   Res.buildProject (pfx ++ "-docker-build"),
   Res.deployProject (pfx ++ "-ecs-deploy"),
   Res.codePipeline (pfx ++ "-pipeline")]

/-- Resources declared by `EventsConstruct` (`src/lib/events.ts:17-83`): the
event rule, debug-only log group and role, the cross-account role and the
external event-bus target. -/
def eventsConstructResources (p : WebServiceProps) : List Res :=
  let pfx := eventsResourceIdPfx p.application p.service p.environment
  [Res.eventsRule (pfx ++ "-events")] ++
  (if p.debug then
    [Res.eventsLogGroup ("/aws/events/" ++ pfx ++ "-pipeline"),
     Res.eventsRole (pfx ++ "-LogGroupEventRole")]
   else []) ++
  [Res.eventsRole (pfx ++ "-CrossAccountEventRole"),
   Res.eventBusTarget (p.eventTarget.getD "")]

/-- Result of running the `WebServiceStack` constructor: the resources that
were declared before the constructor returned or threw, and the error thrown
(if any). -/
structure StackResult where
  declared : List Res
  error : Option String
deriving DecidableEq, Repr

/-- Control flow of the `WebServiceStack` constructor
(`src/stack/WebServiceStack.ts:6-57`): check `env`, check the mandatory
identifiers, construct `ServiceConstruct`, then - only when
`accessTokenSecretArn` is truthy - check `sourceProps` (throwing after the
service resources were already declared) and construct `PipelineConstruct`,
and - only when additionally `eventTarget` is truthy - `EventsConstruct`. -/
def webServiceStack (p : WebServiceProps) : StackResult :=
  if p.env.isNone then
    { declared := [], error := some "Must provide AWS account and region." }
  else if p.application.data.isEmpty || p.environment.data.isEmpty ||
      p.service.data.isEmpty then
    { declared := [], error := some "Mandatory stack properties missing." }
  else
    let svc := serviceConstructResources p
    if jsTruthyS p.accessTokenSecretArn then
      if !jsTruthyS (p.sourceProps.bind SourcePropsCfg.owner) ||
          !jsTruthyS (p.sourceProps.bind SourcePropsCfg.repo) ||
          !jsTruthyS (p.sourceProps.bind SourcePropsCfg.branchOrRef) then
        { declared := svc,
          error := some "Missing sourceProps: Github owner, repo and branch/ref required." }
      else
        let pipe := pipelineConstructResources p
        let evts := if jsTruthyS p.eventTarget then eventsConstructResources p else []
        { declared := svc ++ pipe ++ evts, error := none }
    else
      { declared := svc, error := none }

/-! ## List-of-characters string primitives

Own primitives (instead of `String.isPrefixOf` and friends, which work on
byte positions) so that every operation is plain structural recursion over
`List Char` and reduces definitionally. -/

/-- Prefix test on character lists. -/
def listPfx : List Char → List Char → Bool
  | [], _ => true
  | _ :: _, [] => false
  | a :: p, b :: l => a == b && listPfx p l

/-- Prefix test on strings. -/
def strPfx (p s : String) : Bool :=
  listPfx p.data s.data

/-- Contiguous-substring test on character lists. -/
def listInfix (pat : List Char) : List Char → Bool
  | [] => pat.isEmpty
  | c :: rest => listPfx pat (c :: rest) || listInfix pat rest

/-- Contiguous-substring test on strings. -/
def strInfix (pat s : String) : Bool :=
  listInfix pat.data s.data

/-- Split `l` at the first occurrence of the separator `sep`, returning the
part before it and the part after it. -/
def splitFirstSep (sep : List Char) : List Char → Option (List Char × List Char)
  | [] => if sep.isEmpty then some ([], []) else none
  | c :: rest =>
    if listPfx sep (c :: rest) then some ([], (c :: rest).drop sep.length)
    else
      match splitFirstSep sep rest with
      | none => none
      | some (a, b) => some (c :: a, b)

/-- Character allowed in a shell variable name (our generated scripts only
use upper-case names with underscores). -/
def isNameChar (c : Char) : Bool :=
  c.isAlpha || c.isDigit || c = '_'

/-- Valid shell variable name: nonempty and made of name characters. -/
def isValidVarName (l : List Char) : Bool :=
  !l.isEmpty && l.all isNameChar

/-- First-match lookup in an association list (newer bindings are prepended,
so this realizes shell variable overriding). -/
def lookupAssoc (l : List (String × String)) (k : String) : Option String :=
  match l with
  | [] => none
  | (k', v) :: rest => if k' = k then some v else lookupAssoc rest k

/-- Value substituted for an accumulated (reversed) variable name: the
environment binding, or the empty string for an unset variable (bash
semantics). -/
def substVar (env : List (String × String)) (nmRev : List Char) : List Char :=
  ((lookupAssoc env ⟨nmRev.reverse⟩).getD "").data

/-- One-pass `$NAME` expansion over a character list.  `pending = some nm`
means a `$` was seen and `nm` (reversed) collects name characters; a
non-name character or the end of input flushes the substitution.  A `$`
followed by no name character is kept verbatim. -/
def expandGo (env : List (String × String)) :
    Option (List Char) → List Char → List Char
  | none, [] => []
  | some nmRev, [] => if nmRev.isEmpty then ['$'] else substVar env nmRev
  | none, c :: rest =>
    if c = '$' then expandGo env (some []) rest
    else c :: expandGo env none rest
  | some nmRev, c :: rest =>
    if isNameChar c then expandGo env (some (c :: nmRev)) rest
    else
      (if nmRev.isEmpty then ['$'] else substVar env nmRev) ++
        (if c = '$' then expandGo env (some []) rest
         else c :: expandGo env none rest)

/-- `$NAME` expansion of a string under an environment. -/
def expandVars (env : List (String × String)) (s : String) : String :=
  ⟨expandGo env none s.data⟩

/-! ## Path sanitization (`sanitizePath`, `src/unnamed/part_002:34-37`)

The JS source is
`path.replace(/[^a-zA-Z0-9._\-@#$%^&*+=~ \/]|\/+/g, m => m.includes('/') ? '/' : '').replace(/^\/+|\/+$/g, '')`:
one left-to-right pass replaces every run of slashes by a single slash and
deletes every character outside the allowed class, then leading and trailing
slashes are stripped.  A deleted character ends a slash run, so `a/?/b`
becomes `a//b` - the scanner below reproduces that by resetting its
slash-run flag on every non-slash character. -/

/-- Characters the sanitizer keeps: `[a-zA-Z0-9._\-@#$%^&*+=~ /]`. -/
def isAllowedPathChar (c : Char) : Bool :=
  c.isAlpha || c.isDigit ||
    (['.', '_', '-', '@', '#', '$', '%', '^', '&', '*', '+', '=', '~', ' ',
      '/'].contains c)

/-- Single regex pass: the flag records whether we are inside a slash run. -/
def sanitizeScanAux : Bool → List Char → List Char
  | _, [] => []
  | prevSlash, c :: rest =>
    if c = '/' then
      if prevSlash then sanitizeScanAux true rest
      else '/' :: sanitizeScanAux true rest
    else if isAllowedPathChar c then c :: sanitizeScanAux false rest
    else sanitizeScanAux false rest

/-- Strip leading and trailing slashes (`^\/+|\/+$`). -/
def dropEdgeSlashes (l : List Char) : List Char :=
  ((l.dropWhile (· = '/')).reverse.dropWhile (· = '/')).reverse

/-- The whole `sanitizePath` helper; `undefined` and `""` give `""`. -/
def sanitizePath (o : Option String) : String :=
  match o with
  | none => ""
  | some s => ⟨dropEdgeSlashes (sanitizeScanAux false s.data)⟩

/-! ## A small semantics for the generated shell commands

The generated build/deploy specifications are lists of bash commands.  The
state tracks the working directory, the shell environment, the files written
or read, the image field of the `taskdef.json` produced by the `jq` patch,
and the image of every task-definition revision registered with
`aws ecs register-task-definition`.  Commands other than `cd`, variable
assignments (plain, `export`ed, or from `$( ... )` substitution), redirected
`echo`s and the `jq` patch have no effect on this state; external commands
inside `$( ... )` are answered by an oracle (after `$NAME` expansion, as bash
expands before executing), except `cat`, which reads the file store. -/

/-- Shell-interpreter state for one stage execution. -/
structure ShSt where
  cwd : String
  env : List (String × String)
  files : List (String × String)
  taskdefImage : Option String
  registered : List (Option String)
deriving DecidableEq, Repr

/-- Resolve a (relative) path against the working directory. -/
def joinPath (cwd f : String) : String :=
  if cwd.data.isEmpty then f else cwd ++ "/" ++ f

/-- Evaluate a `$( inner )` command substitution: `cat` reads the file store;
`aws ecs register-task-definition` registers the current `taskdef.json`
image and is otherwise answered by the oracle, like every other external
command. -/
def runSubst (ext : String → String) (st : ShSt) (inner : String) :
    String × ShSt :=
  if strPfx "cat " inner then
    let path := joinPath st.cwd ⟨expandGo st.env none (inner.data.drop 4)⟩
    ((lookupAssoc st.files path).getD "", st)
  else
    let c : String := ⟨expandGo st.env none inner.data⟩
    if strPfx "aws ecs register-task-definition" inner then
      (ext c, { st with registered := st.registered ++ [st.taskdefImage] })
    else
      (ext c, st)

/-- Parse `NAME=rhs` (the name must be a valid variable name, so commands
like `aws ecs update-service --deployment-configuration "maximumPercent=200,..."`
are not assignments). -/
def parseAssign (cmd : String) : Option (String × String) :=
  match splitFirstSep ['='] cmd.data with
  | none => none
  | some (nm, rhs) =>
    if isValidVarName nm then some (⟨nm⟩, ⟨rhs⟩) else none

/-- Perform an assignment: a `$( ... )` right-hand side goes through command
substitution, anything else through `$NAME` expansion. -/
def doAssign (ext : String → String) (st : ShSt) (nm rhs : String) : ShSt :=
  if strPfx "$(" rhs && (rhs.data.getLast? == some ')') then
    let inner : String := ⟨(rhs.data.drop 2).dropLast⟩
    let r := runSubst ext st inner
    { r.2 with env := (nm, r.1) :: r.2.env }
  else
    { st with env := (nm, ⟨expandGo st.env none rhs.data⟩) :: st.env }

/-- Perform `echo payload`: with a ` > file` redirection the expanded payload
is written to the file (relative to the cwd); without one it only logs. -/
def doEcho (st : ShSt) (payload : String) : ShSt :=
  match splitFirstSep [' ', '>', ' '] payload.data with
  | none => st
  | some (lhs, rhs) =>
    { st with files :=
        (joinPath st.cwd ⟨rhs⟩, ⟨expandGo st.env none lhs⟩) :: st.files }

/-- Leading text of the `jq` task-definition patch command
(`src/unnamed/part_002:224`). -/
def jqPatchPfx : String :=
  "echo \"$CURRENT_TASK_DEF\" | jq --arg IMAGE_URI \"$IMAGE_URI\" "

/-- The `jq` expression that replaces the container image in the fetched
task definition. -/
def jqImageAssign : String :=
  ".containerDefinitions[0].image = $IMAGE_URI"

/-- One command step. -/
def stepCmd (ext : String → String) (st : ShSt) (cmd : String) : ShSt :=
  if strPfx "cd " cmd then { st with cwd := ⟨cmd.data.drop 3⟩ }
  else if strPfx "export " cmd then
    match parseAssign ⟨cmd.data.drop 7⟩ with
    | some (nm, rhs) => doAssign ext st nm rhs
    | none => st
  else if strPfx jqPatchPfx cmd && strInfix jqImageAssign cmd then
    { st with taskdefImage := lookupAssoc st.env "IMAGE_URI" }
  else if strPfx "echo " cmd then doEcho st ⟨cmd.data.drop 5⟩
  else
    match parseAssign cmd with
    | some (nm, rhs) => doAssign ext st nm rhs
    | none => st

/-- Run a command list from a state. -/
def runCmds (ext : String → String) (cmds : List String) (st : ShSt) : ShSt :=
  cmds.foldl (stepCmd ext) st

/-- Oracle for the external commands the build stage substitutes: `date ...`
produces the timestamp tag, `docker inspect ... | cut ...` produces the image
digest, and every other external call (the `aws ecs` queries) answers
`awsOut`. -/
def mkExt (tag digest awsOut : String) : String → String :=
  fun c =>
    if strPfx "date " c then tag
    else if strPfx "docker inspect " c then digest
    else awsOut

/-! ## The generated build specification (`createBuildProject`,
`src/unnamed/part_002:96-205`) -/

/-- JS `x || d` on an optional string (empty string is falsy). -/
def jsOrStr (o : Option String) (d : String) : String :=
  match o with
  | none => d
  | some s => if s.data.isEmpty then d else s

/-- Optional Nixpacks flag: `cond ? `--flag "value"` : ''`. -/
def nixOpt (flag : String) (o : Option String) : String :=
  if jsTruthyS o then flag ++ " \"" ++ o.getD "" ++ "\"" else ""

/-- The `docker build` command line for a given Dockerfile path. -/
def dockerBuildCmd (dockerfilePath : String) : String :=
  "docker build -t $ECR_REPO:$IMAGE_TAG -f " ++ dockerfilePath ++ " ."

/-- The `docker push` command line. -/
def dockerPushCmd : String :=
  "docker push $ECR_REPO:$IMAGE_TAG"

/-- The digest-resolution command line. -/
def exportDigestCmd : String :=
  "export IMAGE_DIGEST=$(docker inspect --format=\"\x7b\x7bindex .RepoDigests 0\x7d\x7d\" $ECR_REPO:$IMAGE_TAG | cut -d\"@\" -f2)"

/-- The timestamp-tag command line. -/
def exportTagCmd : String :=
  "export IMAGE_TAG=$(date +%Y%m%d%H%M%S)"

/-- The ECR login command line. -/
def ecrLoginCmd : String :=
  "aws ecr get-login-password --region $AWS_DEFAULT_REGION | docker login --username AWS --password-stdin $ECR_REPO"

/-- The Dockerfile path of the default branch:
`props.serviceProps?.dockerFile || 'Dockerfile'`. -/
def dfpOf (p : WebServiceProps) : String :=
  jsOrStr (p.serviceProps.bind ServicePropsCfg.dockerFile) "Dockerfile"

/-- The Nixpacks Dockerfile-synthesis command line
(`src/unnamed/part_002:104`). -/
def nixpacksLineOf (p : WebServiceProps) : String :=
  "nixpacks build --out . . " ++
    nixOpt "--install-cmd" (p.buildProps.bind BuildPropsCfg.installcmd) ++
    " " ++ nixOpt "--build-cmd" (p.buildProps.bind BuildPropsCfg.buildcmd) ++
    " " ++ nixOpt "--start-cmd" (p.buildProps.bind BuildPropsCfg.startcmd) ++
    " > .nixpacks/Dockerfile"

/-- `buildCommands` and `dockerfilePath` as computed by `createBuildProject`
(`src/unnamed/part_002:98-123`): the Nixpacks branch synthesizes a
Dockerfile first; the default branch uses `serviceProps.dockerFile ||
'Dockerfile'`. -/
def buildCommandsAndDockerfile (p : WebServiceProps) : List String × String :=
  if (p.buildProps.bind BuildPropsCfg.buildSystem) = some "Nixpacks" then
    (["curl -sSL https://nixpacks.com/install.sh | bash",
      nixpacksLineOf p,
      "ls -a",
      exportTagCmd,
      "aws --version",
      ecrLoginCmd,
      dockerBuildCmd ".nixpacks/Dockerfile",
      dockerPushCmd,
      exportDigestCmd], ".nixpacks/Dockerfile")
  else
    ([exportTagCmd,
      "aws --version",
      ecrLoginCmd,
      dockerBuildCmd (dfpOf p),
      dockerPushCmd,
      exportDigestCmd], dfpOf p)

/-- JS `indexOf` on a string list (`-1` when absent). -/
def jsIndexOf (l : List String) (x : String) : Int :=
  match l with
  | [] => -1
  | a :: rest =>
    if a = x then 0
    else
      let r := jsIndexOf rest x
      if r < 0 then -1 else r + 1

/-- Clamp a JS slice index to `[0, len]` (negative counts from the end). -/
def jsSliceClampIdx (len : Nat) (i : Int) : Nat :=
  if i < 0 then len - (-i).toNat else min i.toNat len

/-- JS `Array.prototype.slice(s, e)`. -/
def jsSlice (l : List α) (s e : Int) : List α :=
  (l.take (jsSliceClampIdx l.length e)).drop (jsSliceClampIdx l.length s)

/-- The four artifact commands appended to `post_build`
(`src/unnamed/part_002:138-141`): the digest-pinned `IMAGE_URI` and the
three artifact files. -/
def artifactCmds : List String :=
  ["export IMAGE_URI=$ECR_REPO@$IMAGE_DIGEST",
   "echo $IMAGE_URI > imageUri.txt",
   "echo $IMAGE_TAG > imageTag.txt",
   "echo $IMAGE_DIGEST > imageDigest.txt"]

/-- The generated build-spec phases and artifact file list. -/
structure BuildPhases where
  preBuild : List String
  build : List String
  postBuild : List String
  artifactFiles : List String
deriving DecidableEq, Repr

/-- The build spec as assembled by `createBuildProject`
(`src/unnamed/part_002:124-156`): the command list is cut into phases by
`indexOf`/`slice` around the `docker build`, `docker push` and digest
commands; with a sanitized `rootDir` a `cd` is prepended and the artifact
files live under the root directory. -/
def buildSpecOf (p : WebServiceProps) : BuildPhases :=
  let rootDir := sanitizePath p.rootDir
  let bc := buildCommandsAndDockerfile p
  let buildCommands := bc.1
  let dockerfilePath := bc.2
  let idxBuild := jsIndexOf buildCommands (dockerBuildCmd dockerfilePath)
  let idxPush := jsIndexOf buildCommands dockerPushCmd
  let idxDigest := jsIndexOf buildCommands exportDigestCmd
  { preBuild := (if rootDir.data.isEmpty then [] else ["cd " ++ rootDir]) ++
      jsSlice buildCommands 0 idxBuild,
    build := jsSlice buildCommands idxBuild (idxPush + 1),
    postBuild := jsSlice buildCommands idxDigest buildCommands.length ++
      artifactCmds,
    artifactFiles :=
      if rootDir.data.isEmpty then
        ["imageUri.txt", "imageTag.txt", "imageDigest.txt"]
      else
        [rootDir ++ "/imageUri.txt", rootDir ++ "/imageTag.txt",
         rootDir ++ "/imageDigest.txt"] }

/-! ## The generated deploy specification (`createDeployProject`,
`src/unnamed/part_002:210-258`) -/

/-- The bounded monitoring loop command (`src/unnamed/part_002:237`): 30
iterations, 30-second sleep, break on steady state, `exit 1` on a FAILED
deployment status. -/
def deployLoopCmd : String :=
  "for i in \x7b1..30\x7d; do RUNNING_COUNT=$(aws ecs describe-services --cluster $ECS_CLUSTER --services $ECS_SERVICE --region $AWS_DEFAULT_REGION --query \"services[0].runningCount\" --output text); DESIRED_COUNT=$(aws ecs describe-services --cluster $ECS_CLUSTER --services $ECS_SERVICE --region $AWS_DEFAULT_REGION --query \"services[0].desiredCount\" --output text); DEPLOYMENT_STATUS=$(aws ecs describe-services --cluster $ECS_CLUSTER --services $ECS_SERVICE --region $AWS_DEFAULT_REGION --query \"services[0].deployments[0].status\" --output text); echo \"Deployment status: $DEPLOYMENT_STATUS, Running: $RUNNING_COUNT/$DESIRED_COUNT (attempt $i/30)\"; if [ \"$DEPLOYMENT_STATUS\" = \"PRIMARY\" ] && [ \"$RUNNING_COUNT\" = \"$DESIRED_COUNT\" ]; then echo \"Deployment successful\"; break; fi; if [ \"$DEPLOYMENT_STATUS\" = \"FAILED\" ]; then echo \"Deployment failed\"; exit 1; fi; sleep 30; done"

/-- The final bounded stability wait (`src/unnamed/part_002:239`): a 900
second timeout whose failure is downgraded to a logged warning by
`|| echo ...`. -/
def deployWaitCmd : String :=
  "timeout 900 aws ecs wait services-stable --cluster $ECS_CLUSTER --services $ECS_SERVICE --region $AWS_DEFAULT_REGION || echo \"Deployment completed with timeout - check ECS console for final status\""

/-- The full `jq` patch command (`src/unnamed/part_002:224`): replace the
container image of the fetched task definition with `$IMAGE_URI` and strip
the revision-specific fields. -/
def jqPatchCmd : String :=
  "echo \"$CURRENT_TASK_DEF\" | jq --arg IMAGE_URI \"$IMAGE_URI\" \x27.taskDefinition | .containerDefinitions[0].image = $IMAGE_URI | del(.taskDefinitionArn, .revision, .status, .requiresAttributes, .compatibilities, .registeredAt, .registeredBy)\x27 > taskdef.json"

/-- The generated deploy-spec phases. -/
structure DeployPhases where
  preBuild : List String
  build : List String
deriving DecidableEq, Repr

/-- The deploy spec of `createDeployProject` (`src/unnamed/part_002:215-244`):
read the digest-pinned URI from the build artifact, fetch and patch the
current task definition, register the new revision, update the service with
the rolling policy and circuit breaker, monitor with the bounded loop and
the bounded wait. -/
def deploySpecOf (p : WebServiceProps) : DeployPhases :=
  let rootDir := sanitizePath p.rootDir
  { preBuild :=
      ["echo \"Starting ECS deployment...\"",
       "IMAGE_URI=$(cat " ++
         (if rootDir.data.isEmpty then "imageUri.txt"
          else rootDir ++ "/imageUri.txt") ++ ")",
       "echo \"Deploying image: $IMAGE_URI\"",
       "CURRENT_TASK_DEF=$(aws ecs describe-task-definition --task-definition $ECS_TASKDEF --region $AWS_DEFAULT_REGION)",
       jqPatchCmd],
    build :=
      ["NEW_TASK_DEF_ARN=$(aws ecs register-task-definition --cli-input-json file://taskdef.json --region $AWS_DEFAULT_REGION --query \"taskDefinition.taskDefinitionArn\" --output text)",
       "echo \"New task definition: $NEW_TASK_DEF_ARN\"",
       "aws ecs update-service --cluster $ECS_CLUSTER --service $ECS_SERVICE --deployment-configuration \"maximumPercent=200,minimumHealthyPercent=50,deploymentCircuitBreaker=\x7benable=true,rollback=true\x7d\" --region $AWS_DEFAULT_REGION",
       "aws ecs update-service --cluster $ECS_CLUSTER --service $ECS_SERVICE --task-definition $NEW_TASK_DEF_ARN --region $AWS_DEFAULT_REGION",
       "echo \"Monitoring deployment progress...\"",
       deployLoopCmd,
       deployWaitCmd,
       "echo \"ECS service deployed successfully\""] }

/-! ## Executing the two stages -/

/-- Initial build-stage state: the CodeBuild environment provides
`ECR_REPO` (`src/unnamed/part_002:160`). -/
def initBuildSt (repoUri : String) : ShSt :=
  { cwd := "", env := [("ECR_REPO", repoUri)], files := [],
    taskdefImage := none, registered := [] }

/-- Run the three build phases in order. -/
def runBuildStage (p : WebServiceProps) (repoUri : String)
    (ext : String → String) : ShSt :=
  let bs := buildSpecOf p
  runCmds ext (bs.preBuild ++ bs.build ++ bs.postBuild) (initBuildSt repoUri)

/-- The artifact handed from build to deploy: contents of the declared
artifact files, read from the build-stage file store (paths are relative to
the artifact root, the initial working directory). -/
def buildArtifacts (p : WebServiceProps) (repoUri : String)
    (ext : String → String) : List (String × String) :=
  let st := runBuildStage p repoUri ext
  (buildSpecOf p).artifactFiles.map fun f =>
    (f, (lookupAssoc st.files f).getD "")

/-- Initial deploy-stage state: the CodeBuild environment provides the
cluster, service and task-definition family
(`src/unnamed/part_002:252-256`), and the input artifact provides the
files. -/
def initDeploySt (afiles : List (String × String))
    (cluster svcName family : String) : ShSt :=
  { cwd := "",
    env := [("ECS_CLUSTER", cluster), ("ECS_SERVICE", svcName),
      ("ECS_TASKDEF", family)],
    files := afiles, taskdefImage := none, registered := [] }

/-- Run the deploy phases on the build artifact. -/
def runDeployStage (p : WebServiceProps) (afiles : List (String × String))
    (cluster svcName family : String) (ext : String → String) : ShSt :=
  let ds := deploySpecOf p
  runCmds ext (ds.preBuild ++ ds.build) (initDeploySt afiles cluster svcName family)

/-- The images of the task-definition revisions registered by one
build-then-deploy pipeline execution. -/
def pipelineRegisteredImages (p : WebServiceProps)
    (repoUri tag digest awsOut cluster svcName family : String) :
    List (Option String) :=
  let ext := mkExt tag digest awsOut
  (runDeployStage p (buildArtifacts p repoUri ext) cluster svcName family
    ext).registered

/-- Path of the `imageUri.txt` artifact file. -/
def imageUriArtifactPath (p : WebServiceProps) : String :=
  if (sanitizePath p.rootDir).data.isEmpty then "imageUri.txt"
  else sanitizePath p.rootDir ++ "/imageUri.txt"

/-- Path of the `imageTag.txt` artifact file. -/
def imageTagArtifactPath (p : WebServiceProps) : String :=
  if (sanitizePath p.rootDir).data.isEmpty then "imageTag.txt"
  else sanitizePath p.rootDir ++ "/imageTag.txt"

/-- Path of the `imageDigest.txt` artifact file. -/
def imageDigestArtifactPath (p : WebServiceProps) : String :=
  if (sanitizePath p.rootDir).data.isEmpty then "imageDigest.txt"
  else sanitizePath p.rootDir ++ "/imageDigest.txt"

/-- The build-stage final state reached from `initBuildSt` after the whole
generated build script: tag and digest resolved, the digest-pinned
`IMAGE_URI` exported and the three artifact files written under the working
directory `w`. -/
def mkBuildFinal (w repoUri tag digest : String) : ShSt :=
  { cwd := w,
    env := [("IMAGE_URI", ⟨repoUri.data ++ '@' :: digest.data⟩),
      ("IMAGE_DIGEST", digest), ("IMAGE_TAG", tag), ("ECR_REPO", repoUri)],
    files := [(joinPath w "imageDigest.txt", digest),
      (joinPath w "imageTag.txt", tag),
      (joinPath w "imageUri.txt", ⟨repoUri.data ++ '@' :: digest.data⟩)],
    taskdefImage := none, registered := [] }

/-! ## The deploy-stage monitoring loop, as a transition system

`deployLoopCmd` polls `aws ecs describe-services` up to 30 times with a
30-second sleep: break on (PRIMARY, running = desired), `exit 1` on FAILED,
otherwise sleep and retry; afterwards `deployWaitCmd` waits for stability
with a 900 second timeout whose expiry only logs a warning.  The functions
below are that control flow with the observed service states abstracted as
an observation sequence. -/

/-- Deployment status reported by `describe-services` for the first
deployment. -/
inductive DeployStatus
  | primary
  | failed
  | inProgress
deriving DecidableEq, Repr

/-- One observation of the service. -/
structure EcsObs where
  status : DeployStatus
  runningCount : Nat
  desiredCount : Nat
deriving DecidableEq, Repr

/-- The loop's break condition: PRIMARY and running = desired. -/
def obsSteady (o : EcsObs) : Bool :=
  decide (o.status = DeployStatus.primary ∧ o.runningCount = o.desiredCount)

/-- Outcome of the monitoring loop. -/
inductive LoopOutcome
  | steadyBreak
  | hardFail
  | exhausted
deriving DecidableEq, Repr

/-- The loop body over attempts `i, i+1, ...` with `fuel` iterations left;
also accumulates the seconds slept. -/
def monitorLoopAux (obs : Nat → EcsObs) : Nat → Nat → LoopOutcome × Nat
  | 0, _ => (LoopOutcome.exhausted, 0)
  | fuel + 1, i =>
    let o := obs i
    if obsSteady o then (LoopOutcome.steadyBreak, 0)
    else if o.status = DeployStatus.failed then (LoopOutcome.hardFail, 0)
    else
      let r := monitorLoopAux obs fuel (i + 1)
      (r.1, r.2 + 30)

/-- The `for i in {1..30}` loop of `deployLoopCmd`. -/
def monitorLoop (obs : Nat → EcsObs) : LoopOutcome × Nat :=
  monitorLoopAux obs 30 1

/-- Result of the whole deploy-stage script tail: exit code and whether the
timeout warning was logged.  `waitStable` tells whether
`aws ecs wait services-stable` finished within its 900 second timeout. -/
structure DeployStageOutcome where
  exitCode : Nat
  timedOutWarning : Bool
deriving DecidableEq, Repr

/-- Script tail semantics: `exit 1` inside the loop fails the stage; in
every other case `deployWaitCmd` runs and its `|| echo` arm turns a timeout
into a logged warning with exit code 0, so the stage reports success. -/
def deployStageResult (obs : Nat → EcsObs) (waitStable : Bool) :
    DeployStageOutcome :=
  match (monitorLoop obs).1 with
  | LoopOutcome.hardFail => { exitCode := 1, timedOutWarning := false }
  | _ => { exitCode := 0, timedOutWarning := !waitStable }

/-! ## Concrete descriptors used as witnesses and counterexamples -/

/-- C1 counterexample: a descriptor with `domain` set but `hostedZoneId`
unset.  Contrary to the claim, `WebServiceStack` construction does not fail:
the error component is `none`. -/
def c1Props : WebServiceProps :=
  { env := some ⟨"123456789012", "eu-central-1"⟩,
    application := "shop", service := "api", environment := "prod",
    domain := some "app.example.com",
    regionalCertificateArn :=
      some "arn:aws:acm:eu-central-1:123456789012:certificate/abc" }

/-- C2 witness: a concrete descriptor with an empty `application`. -/
def c2Props : WebServiceProps :=
  { env := some ⟨"123456789012", "eu-central-1"⟩,
    application := "", service := "api", environment := "prod" }

/-- C3 counterexample props: mandatory identifiers are fine, the pipeline is
enabled (`accessTokenSecretArn` set) but `sourceProps` is missing, so the
constructor throws - after `ServiceConstruct` has already declared the
service resources. -/
def c3Props : WebServiceProps :=
  { env := some ⟨"123456789012", "eu-central-1"⟩,
    application := "shop", service := "api", environment := "prod",
    accessTokenSecretArn :=
      some "arn:aws:secretsmanager:eu-central-1:123456789012:secret:gh" }

/-- C7 props: pipeline enabled, `sourceProps.owner` set but `repo` and
`branchOrRef` unset. -/
def c7Props : WebServiceProps :=
  { env := some ⟨"123456789012", "eu-central-1"⟩,
    application := "shop", service := "api", environment := "prod",
    accessTokenSecretArn :=
      some "arn:aws:secretsmanager:eu-central-1:123456789012:secret:gh",
    sourceProps := some { owner := some "thunder-so" } }

/-- C8 witness props: a minimal valid descriptor with every sizing field
unset. -/
def c8Props : WebServiceProps :=
  { env := some ⟨"123456789012", "eu-central-1"⟩,
    application := "shop", service := "api", environment := "prod" }

/-- C10 witness props: `eventTarget` set, `accessTokenSecretArn` unset. -/
def c10Props : WebServiceProps :=
  { env := some ⟨"123456789012", "eu-central-1"⟩,
    application := "shop", service := "api", environment := "prod",
    eventTarget := some "arn:aws:events:eu-central-1:999999999999:event-bus/hub" }

/-- Component of an identity tuple on which the truncating derivation is
lossless and the ASCII `toLowerCase` model is faithful: at most 7
characters, every character ASCII (code point below 128), none of them an
upper-case letter or a hyphen.  The ASCII restriction matters: JS
`toLowerCase` also lowercases non-ASCII letters (`É` to `é`), so without
it distinct tuples such as `("É", s, e)` and `("é", s, e)` would collide
in the program. -/
def goodComp (s : String) : Bool :=
  decide (s.data.length ≤ 7) &&
    s.data.all fun c =>
      decide (c.toNat < 128) && !isUpperAscii c && !(c = '-')

/-- Always-failing observation sequence for the C9 witness. -/
def obsAllFailed : Nat → EcsObs :=
  fun _ => { status := DeployStatus.failed, runningCount := 0, desiredCount := 1 }

/-! ## Helper lemmas about the declared resource lists -/

theorem char_ofNat_toNat (n : Nat) (h1 : 97 ≤ n) (h2 : n ≤ 122) :
    (Char.ofNat n).toNat = n := by
  have hv : n.isValidChar := Or.inl (by omega)
  rw [Char.ofNat, dif_pos hv]
  simp [Char.ofNatAux, Char.toNat, Nat.toUInt32, UInt32.toNat, UInt32.ofNatCore]

theorem jsCharToLower_not_upper (c : Char) :
    isUpperAscii (jsCharToLower c) = false := by
  unfold jsCharToLower isUpperAscii
  by_cases h : 65 ≤ c.toNat ∧ c.toNat ≤ 90
  · rw [if_pos h]
    have hn : (Char.ofNat (c.toNat + 32)).toNat = c.toNat + 32 :=
      char_ofNat_toNat _ (by omega) (by omega)
    simp [hn]
    omega
  · rw [if_neg h]
    simpa using h

theorem jsCharToLower_eq_self (c : Char) (h : isUpperAscii c = false) :
    jsCharToLower c = c := by
  unfold jsCharToLower
  rw [if_neg]
  simpa [isUpperAscii] using h

theorem serviceConstructResources_no_pipeline (p : WebServiceProps) :
    (serviceConstructResources p).any Res.isPipelineRes = false := by
  unfold serviceConstructResources
  split <;> simp [Res.isPipelineRes]

theorem serviceConstructResources_no_event (p : WebServiceProps) :
    (serviceConstructResources p).any Res.isEventRes = false := by
  unfold serviceConstructResources
  split <;> simp [Res.isEventRes]

theorem pipelineConstructResources_no_event (p : WebServiceProps) :
    (pipelineConstructResources p).any Res.isEventRes = false := by
  simp [pipelineConstructResources, Res.isEventRes]

theorem serviceConstructResources_no_https (p : WebServiceProps)
    (h : jsTruthyS p.hostedZoneId = false ∨
      jsTruthyS p.regionalCertificateArn = false) :
    (serviceConstructResources p).any Res.isHttpsWiring = false := by
  unfold serviceConstructResources
  have hcond : (jsTruthyS p.domain && jsTruthyS p.hostedZoneId &&
      jsTruthyS p.regionalCertificateArn) = false := by
    rcases h with h | h <;> simp [h]
  rw [if_neg (by simp [hcond])]
  simp [Res.isHttpsWiring]

/-! ## Branch characterizations of the stack constructor -/

theorem wss_env_err (p : WebServiceProps) (h : p.env.isNone = true) :
    webServiceStack p =
      { declared := [], error := some "Must provide AWS account and region." } := by
  unfold webServiceStack
  rw [if_pos h]

theorem wss_mand_err (p : WebServiceProps) (h0 : p.env.isNone = false)
    (h : (p.application.data.isEmpty || p.environment.data.isEmpty ||
      p.service.data.isEmpty) = true) :
    webServiceStack p =
      { declared := [], error := some "Mandatory stack properties missing." } := by
  unfold webServiceStack
  rw [if_neg (by simp [h0]), if_pos h]

theorem wss_service_only (p : WebServiceProps) (h0 : p.env.isNone = false)
    (h1 : (p.application.data.isEmpty || p.environment.data.isEmpty ||
      p.service.data.isEmpty) = false)
    (h2 : jsTruthyS p.accessTokenSecretArn = false) :
    webServiceStack p =
      { declared := serviceConstructResources p, error := none } := by
  unfold webServiceStack
  rw [if_neg (by simp [h0]), if_neg (by simp [h1])]
  simp [h2]

theorem wss_src_err (p : WebServiceProps) (h0 : p.env.isNone = false)
    (h1 : (p.application.data.isEmpty || p.environment.data.isEmpty ||
      p.service.data.isEmpty) = false)
    (h2 : jsTruthyS p.accessTokenSecretArn = true)
    (h3 : (!jsTruthyS (p.sourceProps.bind SourcePropsCfg.owner) ||
      !jsTruthyS (p.sourceProps.bind SourcePropsCfg.repo) ||
      !jsTruthyS (p.sourceProps.bind SourcePropsCfg.branchOrRef)) = true) :
    webServiceStack p =
      { declared := serviceConstructResources p,
        error := some "Missing sourceProps: Github owner, repo and branch/ref required." } := by
  unfold webServiceStack
  rw [if_neg (by simp [h0]), if_neg (by simp [h1])]
  simp [h2, h3]

theorem wss_full (p : WebServiceProps) (h0 : p.env.isNone = false)
    (h1 : (p.application.data.isEmpty || p.environment.data.isEmpty ||
      p.service.data.isEmpty) = false)
    (h2 : jsTruthyS p.accessTokenSecretArn = true)
    (h3 : (!jsTruthyS (p.sourceProps.bind SourcePropsCfg.owner) ||
      !jsTruthyS (p.sourceProps.bind SourcePropsCfg.repo) ||
      !jsTruthyS (p.sourceProps.bind SourcePropsCfg.branchOrRef)) = false) :
    webServiceStack p =
      { declared := serviceConstructResources p ++ pipelineConstructResources p ++
          (if jsTruthyS p.eventTarget then eventsConstructResources p else []),
        error := none } := by
  unfold webServiceStack
  rw [if_neg (by simp [h0]), if_neg (by simp [h1])]
  simp [h2, h3]

/-! ## Claim C2: missing mandatory identifiers fail before any declaration -/

/-- C2: for every `WebServiceProps` in which `application`, `service` or
`environment` is missing or empty, `WebServiceStack` construction throws and
the set of resources declared on that path is empty - the error precedes
every resource construct. -/
theorem C2_mandatory_fields_fail_first (p : WebServiceProps)
    (h : p.application.data.isEmpty = true ∨ p.service.data.isEmpty = true ∨
      p.environment.data.isEmpty = true) :
    (webServiceStack p).declared = [] ∧ (webServiceStack p).error.isSome = true := by
  unfold webServiceStack
  rcases henv : p.env.isNone with _ | _
  · have hm : (p.application.data.isEmpty || p.environment.data.isEmpty ||
        p.service.data.isEmpty) = true := by
      rcases h with h | h | h <;> simp [h]
    simp [henv, hm]
  · simp [henv]

/-- Witness for `C2_mandatory_fields_fail_first` at `c2Props`. -/
theorem C2_mandatory_fields_fail_first_witness :
    (webServiceStack c2Props).declared = [] ∧
    (webServiceStack c2Props).error.isSome = true :=
  C2_mandatory_fields_fail_first c2Props (Or.inl (by decide))

/-! ## Claim C5: prefix determinism, lower-casing, length bounds -/

/-- C5 counterexample: at the tuple `("Shop", "api", "prod")` the
`EventsConstruct`/legacy derivation resolves to a different string than the
`ServiceConstruct` derivation, and its result is not entirely lower-case - so
"two resolutions of the same tuple yield the identical string" and "the
resulting prefix is entirely lower-case" both fail for the cited line-241
derivation. -/
theorem C5_counterexample :
    eventsResourceIdPfx "Shop" "api" "prod" ≠
      serviceResourceIdPfx "Shop" "api" "prod" ∧
    allLowerStr (eventsResourceIdPfx "Shop" "api" "prod") = false := by
  decide

/-- C5 (amended): every derivation is deterministic (the service and pipeline
constructs derive the identical string for the same tuple); the
service/pipeline prefix is entirely lower-case and at most 23 characters;
the events/legacy prefix is at most 42 characters but preserves case. -/
theorem C5_resourceIdPfx_deterministic_lower_bounded (a s e : String) :
    serviceResourceIdPfx a s e = pipelineResourceIdPfx a s e ∧
    allLowerStr (serviceResourceIdPfx a s e) = true ∧
    (serviceResourceIdPfx a s e).data.length ≤ 23 ∧
    (eventsResourceIdPfx a s e).data.length ≤ 42 := by
  refine ⟨rfl, ?_, ?_, ?_⟩
  · unfold serviceResourceIdPfx jsToLower allLowerStr
    simp only [List.all_eq_true, List.mem_map]
    rintro c ⟨c', -, rfl⟩
    simp [jsCharToLower_not_upper]
  · unfold serviceResourceIdPfx jsToLower jsSubstring0
    simp [List.length_take_le]
  · unfold eventsResourceIdPfx jsSubstring0
    simp [List.length_take_le]

/-! ## Claim C6: injectivity of the naming scheme -/

/-- C6 counterexample: two distinct application names that agree on their
first seven characters collide. -/
theorem C6_counterexample :
    serviceResourceIdPfx "platform-alpha" "api" "prod" =
      serviceResourceIdPfx "platform-beta" "api" "prod" ∧
    ("platform-alpha" : String) ≠ "platform-beta" := by
  decide

theorem mapToLower_eq_self (l : List Char)
    (h : ∀ c ∈ l, isUpperAscii c = false) :
    l.map jsCharToLower = l := by
  induction l with
  | nil => rfl
  | cons c rest ih =>
    simp only [List.map_cons]
    rw [jsCharToLower_eq_self c (h c (by simp)),
      ih fun c hc => h c (by simp [hc])]

theorem append_hyphen_inj (as bs r1 r2 : List Char)
    (ha : ∀ c ∈ as, c ≠ '-') (hb : ∀ c ∈ bs, c ≠ '-')
    (h : as ++ '-' :: r1 = bs ++ '-' :: r2) : as = bs ∧ r1 = r2 := by
  induction as generalizing bs with
  | nil =>
    cases bs with
    | nil => simpa using h
    | cons b bs' =>
      exfalso
      simp only [List.nil_append, List.cons_append, List.cons.injEq] at h
      exact hb b (by simp) h.1.symm
  | cons a as' ih =>
    cases bs with
    | nil =>
      exfalso
      simp only [List.cons_append, List.nil_append, List.cons.injEq] at h
      exact ha a (by simp) h.1
    | cons b bs' =>
      simp only [List.cons_append, List.cons.injEq] at h
      obtain ⟨rfl, h2⟩ := h
      obtain ⟨h3, h4⟩ := ih bs' (fun c hc => ha c (List.mem_cons_of_mem _ hc))
        (fun c hc => hb c (List.mem_cons_of_mem _ hc)) h2
      exact ⟨by rw [h3], h4⟩

theorem goodComp_facts (s : String) (h : goodComp s = true) :
    s.data.length ≤ 7 ∧ (∀ c ∈ s.data, isUpperAscii c = false) ∧
      ∀ c ∈ s.data, c ≠ '-' := by
  simp only [goodComp, Bool.and_eq_true, decide_eq_true_eq, List.all_eq_true,
    Bool.not_eq_true'] at h
  refine ⟨h.1, fun c hc => (h.2 c hc).1.2, fun c hc => ?_⟩
  have := (h.2 c hc).2
  simpa using this

theorem serviceResourceIdPfx_of_good (a s e : String)
    (ha : goodComp a = true) (hs : goodComp s = true) (he : goodComp e = true) :
    serviceResourceIdPfx a s e = a ++ "-" ++ s ++ "-" ++ e := by
  obtain ⟨hal, hau, -⟩ := goodComp_facts a ha
  obtain ⟨hsl, hsu, -⟩ := goodComp_facts s hs
  obtain ⟨hel, heu, -⟩ := goodComp_facts e he
  unfold serviceResourceIdPfx jsSubstring0 jsToLower
  apply String.ext
  simp only [String.data_append]
  rw [List.take_of_length_le hal, List.take_of_length_le hsl,
    List.take_of_length_le hel]
  have hlen : (a.data ++ ("-".data ++ (s.data ++ ("-".data ++ e.data)))).length ≤ 23 := by
    simp only [List.length_append, List.length_cons]
    simp at hal hsl hel ⊢
    omega
  rw [show a.data ++ "-".data ++ s.data ++ "-".data ++ e.data =
      a.data ++ ("-".data ++ (s.data ++ ("-".data ++ e.data))) by simp,
    List.take_of_length_le hlen]
  apply mapToLower_eq_self
  intro c hc
  simp only [List.mem_append] at hc
  rcases hc with hc | hc | hc | hc | hc
  · exact hau c hc
  · simp only [List.mem_singleton] at hc
    subst hc
    decide
  · exact hsu c hc
  · simp only [List.mem_singleton] at hc
    subst hc
    decide
  · exact heu c hc

/-- C6 (amended): the identity-tuple-to-prefix mapping is not injective in
general (see the counterexample), but it is injective on tuples whose three
components are ASCII, lower-case, hyphen-free and at most 7 characters
each.  The ASCII restriction is required for faithfulness: on ASCII input
the embedded lower-casing agrees with the Unicode-aware JS `toLowerCase`,
while outside ASCII the program itself collides distinct tuples such as
`("É", s, e)` and `("é", s, e)`. -/
theorem C6_injective_on_short_lower_hyphenfree
    (a1 s1 e1 a2 s2 e2 : String)
    (h1 : goodComp a1 = true) (h2 : goodComp s1 = true)
    (h3 : goodComp e1 = true) (h4 : goodComp a2 = true)
    (h5 : goodComp s2 = true) (h6 : goodComp e2 = true)
    (heq : serviceResourceIdPfx a1 s1 e1 = serviceResourceIdPfx a2 s2 e2) :
    a1 = a2 ∧ s1 = s2 ∧ e1 = e2 := by
  rw [serviceResourceIdPfx_of_good a1 s1 e1 h1 h2 h3,
    serviceResourceIdPfx_of_good a2 s2 e2 h4 h5 h6] at heq
  have hd := congrArg String.data heq
  simp only [String.data_append] at hd
  rw [show a1.data ++ "-".data ++ s1.data ++ "-".data ++ e1.data =
      a1.data ++ '-' :: (s1.data ++ '-' :: e1.data) by simp,
    show a2.data ++ "-".data ++ s2.data ++ "-".data ++ e2.data =
      a2.data ++ '-' :: (s2.data ++ '-' :: e2.data) by simp] at hd
  obtain ⟨-, -, hah⟩ := goodComp_facts a1 h1
  obtain ⟨-, -, hsh⟩ := goodComp_facts s1 h2
  obtain ⟨-, -, hah2⟩ := goodComp_facts a2 h4
  obtain ⟨-, -, hsh2⟩ := goodComp_facts s2 h5
  obtain ⟨hda, hrest⟩ := append_hyphen_inj _ _ _ _ hah hah2 hd
  obtain ⟨hds, hde⟩ := append_hyphen_inj _ _ _ _ hsh hsh2 hrest
  exact ⟨String.ext hda, String.ext hds, String.ext hde⟩

/-- Witness for `C6_injective_on_short_lower_hyphenfree` at a concrete
tuple. -/
theorem C6_injective_on_short_lower_hyphenfree_witness :
    ("shop" : String) = "shop" ∧ ("api" : String) = "api" ∧
      ("prod" : String) = "prod" :=
  C6_injective_on_short_lower_hyphenfree "shop" "api" "prod" "shop" "api" "prod"
    (by decide) (by decide) (by decide) (by decide) (by decide) (by decide) rfl

/-! ## Claim C1: domain set with incomplete HTTPS configuration -/

/-- C1 counterexample: `c1Props` has `domain` truthy and `hostedZoneId`
unset, yet stack construction succeeds without any validation error -
refuting "stack construction must fail with a validation error". -/
theorem C1_counterexample :
    jsTruthyS c1Props.domain = true ∧ jsTruthyS c1Props.hostedZoneId = false ∧
    (webServiceStack c1Props).error = none := by
  decide

/-- C1 (amended): with `domain` set but `hostedZoneId` or
`regionalCertificateArn` unset, construction does not fail (no validation
error is raised, given the mandatory fields are present and no pipeline is
configured), and the HTTPS wiring is skipped entirely: no HTTPS listener, no
HTTP-to-HTTPS redirect, no alias record - so there is indeed no partial
HTTPS wiring, but silently rather than by a validation failure. -/
theorem C1_incomplete_domain_skips_https (p : WebServiceProps)
    (henv : p.env.isNone = false)
    (ha : p.application.data.isEmpty = false)
    (he : p.environment.data.isEmpty = false)
    (hs : p.service.data.isEmpty = false)
    (hat : jsTruthyS p.accessTokenSecretArn = false)
    (_hd : jsTruthyS p.domain = true)
    (hmz : jsTruthyS p.hostedZoneId = false ∨
      jsTruthyS p.regionalCertificateArn = false) :
    (webServiceStack p).error = none ∧
    (webServiceStack p).declared.any Res.isHttpsWiring = false := by
  rw [wss_service_only p henv (by simp [ha, he, hs]) hat]
  exact ⟨rfl, serviceConstructResources_no_https p hmz⟩

/-- Witness for `C1_incomplete_domain_skips_https` at `c1Props`. -/
theorem C1_incomplete_domain_skips_https_witness :
    (webServiceStack c1Props).error = none ∧
    (webServiceStack c1Props).declared.any Res.isHttpsWiring = false :=
  C1_incomplete_domain_skips_https c1Props (by decide) (by decide) (by decide)
    (by decide) (by decide) (by decide) (Or.inl (by decide))

/-! ## Claim C3: configuration errors and partial declaration -/

/-- C3 counterexample: at `c3Props` a configuration error (incomplete
`sourceProps`) is raised, yet the set of resources declared on this error
path is not empty - the service resources were declared before the check. -/
theorem C3_counterexample :
    (webServiceStack c3Props).error.isSome = true ∧
    (webServiceStack c3Props).declared ≠ [] := by
  decide

/-- C3 (amended): on every error path no pipeline resource and no event
resource has been declared, and for a missing mandatory field (`env`,
`application`, `environment`, `service`) the error precedes every resource
declaration; but the incomplete-`sourceProps` error is raised only after the
service resources were declared (see the counterexample). -/
theorem C3_error_paths (p : WebServiceProps) :
    ((webServiceStack p).error.isSome = true →
      (webServiceStack p).declared.any Res.isPipelineRes = false ∧
      (webServiceStack p).declared.any Res.isEventRes = false) ∧
    ((p.env.isNone = true ∨ p.application.data.isEmpty = true ∨
        p.environment.data.isEmpty = true ∨ p.service.data.isEmpty = true) →
      (webServiceStack p).declared = []) := by
  constructor
  · intro herr
    rcases henv : p.env.isNone with _ | _
    · rcases hm : (p.application.data.isEmpty || p.environment.data.isEmpty ||
          p.service.data.isEmpty) with _ | _
      · rcases hat : jsTruthyS p.accessTokenSecretArn with _ | _
        · rw [wss_service_only p henv hm hat]
          exact ⟨serviceConstructResources_no_pipeline p,
            serviceConstructResources_no_event p⟩
        · rcases hsrc : (!jsTruthyS (p.sourceProps.bind SourcePropsCfg.owner) ||
              !jsTruthyS (p.sourceProps.bind SourcePropsCfg.repo) ||
              !jsTruthyS (p.sourceProps.bind SourcePropsCfg.branchOrRef)) with _ | _
          · rw [wss_full p henv hm hat hsrc] at herr
            simp at herr
          · rw [wss_src_err p henv hm hat hsrc]
            exact ⟨serviceConstructResources_no_pipeline p,
              serviceConstructResources_no_event p⟩
      · rw [wss_mand_err p henv hm]
        simp
    · rw [wss_env_err p henv]
      simp
  · intro hmand
    rcases henv : p.env.isNone with _ | _
    · have hm : (p.application.data.isEmpty || p.environment.data.isEmpty ||
          p.service.data.isEmpty) = true := by
        rcases hmand with h | h | h | h
        · rw [henv] at h
          exact absurd h (by simp)
        all_goals simp [h]
      rw [wss_mand_err p henv hm]
    · rw [wss_env_err p henv]

/-- Witness for `C3_error_paths` at `c3Props`: its error path declares no
pipeline and no event resource. -/
theorem C3_error_paths_witness :
    (webServiceStack c3Props).declared.any Res.isPipelineRes = false ∧
    (webServiceStack c3Props).declared.any Res.isEventRes = false :=
  (C3_error_paths c3Props).1 (by decide)

/-! ## Claim C7: pipeline enabled with incomplete sourceProps -/

/-- C7: for every descriptor with `accessTokenSecretArn` set but
`sourceProps.owner`, `sourceProps.repo` or `sourceProps.branchOrRef` unset,
stack construction fails with the descriptive sourceProps error and no
pipeline resource (ECR repository, build project, deploy project,
CodePipeline) and no event resource is declared. -/
theorem C7_incomplete_sourceprops_fails (p : WebServiceProps)
    (henv : p.env.isNone = false)
    (ha : p.application.data.isEmpty = false)
    (he : p.environment.data.isEmpty = false)
    (hs : p.service.data.isEmpty = false)
    (hat : jsTruthyS p.accessTokenSecretArn = true)
    (hsrc : jsTruthyS (p.sourceProps.bind SourcePropsCfg.owner) = false ∨
      jsTruthyS (p.sourceProps.bind SourcePropsCfg.repo) = false ∨
      jsTruthyS (p.sourceProps.bind SourcePropsCfg.branchOrRef) = false) :
    (webServiceStack p).error =
      some "Missing sourceProps: Github owner, repo and branch/ref required." ∧
    (webServiceStack p).declared.any Res.isPipelineRes = false ∧
    (webServiceStack p).declared.any Res.isEventRes = false := by
  have hcond : (!jsTruthyS (p.sourceProps.bind SourcePropsCfg.owner) ||
      !jsTruthyS (p.sourceProps.bind SourcePropsCfg.repo) ||
      !jsTruthyS (p.sourceProps.bind SourcePropsCfg.branchOrRef)) = true := by
    rcases hsrc with h | h | h <;> simp [h]
  rw [wss_src_err p henv (by simp [ha, he, hs]) hat hcond]
  exact ⟨rfl, serviceConstructResources_no_pipeline p,
    serviceConstructResources_no_event p⟩

/-- Witness for `C7_incomplete_sourceprops_fails` at `c7Props`. -/
theorem C7_incomplete_sourceprops_fails_witness :
    (webServiceStack c7Props).error =
      some "Missing sourceProps: Github owner, repo and branch/ref required." ∧
    (webServiceStack c7Props).declared.any Res.isPipelineRes = false ∧
    (webServiceStack c7Props).declared.any Res.isEventRes = false :=
  C7_incomplete_sourceprops_fails c7Props (by decide) (by decide) (by decide)
    (by decide) (by decide) (Or.inr (Or.inl (by decide)))

/-! ## Claim C8: defaults applied to unset fields -/

/-- C8: for every descriptor that passes validation and leaves the sizing
fields unset, the declared resources carry the defaults: task definition with
CPU 256 and memory 512 MiB on the X86_64 baseline, container port 3000,
target group port 3000, desired count 1. -/
theorem C8_defaults_applied (p : WebServiceProps)
    (henv : p.env.isNone = false)
    (ha : p.application.data.isEmpty = false)
    (he : p.environment.data.isEmpty = false)
    (hs : p.service.data.isEmpty = false)
    (hcpu : p.serviceProps.bind ServicePropsCfg.cpu = none)
    (hmem : p.serviceProps.bind ServicePropsCfg.memorySize = none)
    (hport : p.serviceProps.bind ServicePropsCfg.port = none)
    (hdes : p.serviceProps.bind ServicePropsCfg.desiredCount = none)
    (harch : p.serviceProps.bind ServicePropsCfg.architecture = none) :
    Res.taskDef 256 512 CpuArch.x86_64 ∈ (webServiceStack p).declared ∧
    Res.container (p.service ++ "-container") 3000 ∈ (webServiceStack p).declared ∧
    Res.fargateService (p.service ++ "-service") 1 ∈ (webServiceStack p).declared ∧
    Res.targetGroup
      (serviceResourceIdPfx p.application p.service p.environment ++ "-blue-tg")
      3000 ∈ (webServiceStack p).declared := by
  have hmem' : ∀ r, r ∈ serviceConstructResources p →
      r ∈ (webServiceStack p).declared := by
    intro r hr
    rcases hat : jsTruthyS p.accessTokenSecretArn with _ | _
    · rw [wss_service_only p henv (by simp [ha, he, hs]) hat]
      exact hr
    · rcases hsrc : (!jsTruthyS (p.sourceProps.bind SourcePropsCfg.owner) ||
          !jsTruthyS (p.sourceProps.bind SourcePropsCfg.repo) ||
          !jsTruthyS (p.sourceProps.bind SourcePropsCfg.branchOrRef)) with _ | _
      · rw [wss_full p henv (by simp [ha, he, hs]) hat hsrc]
        simp only [List.mem_append]
        exact Or.inl (Or.inl hr)
      · rw [wss_src_err p henv (by simp [ha, he, hs]) hat hsrc]
        exact hr
  have hbase : ∀ r,
      r ∈ ([Res.vpc (serviceResourceIdPfx p.application p.service p.environment ++ "-vpc"),
        Res.cluster (serviceResourceIdPfx p.application p.service p.environment ++ "-cluster"),
        Res.logGroup ("/webservice/" ++ serviceResourceIdPfx p.application p.service p.environment ++ "-logs"),
        Res.taskDef 256 512 CpuArch.x86_64,
        Res.container (p.service ++ "-container") 3000,
        Res.fargateService (p.service ++ "-service") 1,
        Res.targetGroup (serviceResourceIdPfx p.application p.service p.environment ++ "-blue-tg") 3000,
        Res.alb (serviceResourceIdPfx p.application p.service p.environment),
        Res.httpListener] : List Res) → r ∈ serviceConstructResources p := by
    intro r hr
    unfold serviceConstructResources
    simp only [hcpu, hmem, hport, hdes, harch, Option.getD_none, jsOrNat] at hr ⊢
    split
    · simp only [List.mem_append]
      exact Or.inl hr
    · exact hr
  refine ⟨hmem' _ (hbase _ (by simp)), hmem' _ (hbase _ (by simp)),
    hmem' _ (hbase _ (by simp)), hmem' _ (hbase _ (by simp))⟩

/-- Witness for `C8_defaults_applied` at `c8Props`. -/
theorem C8_defaults_applied_witness :
    Res.taskDef 256 512 CpuArch.x86_64 ∈ (webServiceStack c8Props).declared ∧
    Res.container ("api" ++ "-container") 3000 ∈ (webServiceStack c8Props).declared ∧
    Res.fargateService ("api" ++ "-service") 1 ∈ (webServiceStack c8Props).declared ∧
    Res.targetGroup (serviceResourceIdPfx "shop" "api" "prod" ++ "-blue-tg") 3000 ∈
      (webServiceStack c8Props).declared :=
  C8_defaults_applied c8Props (by decide) (by decide) (by decide) (by decide)
    rfl rfl rfl rfl rfl

/-! ## Claim C10: event wiring is gated behind the pipeline condition -/

/-- C10: the event notifier is declared only when both
`accessTokenSecretArn` and `eventTarget` are set.  With `eventTarget` set but
`accessTokenSecretArn` unset, no event resource is declared and the stack
result is identical to the one with `eventTarget` removed - the field is
silently ignored; and conversely any declared event resource implies both
fields were truthy. -/
theorem C10_events_need_pipeline (p : WebServiceProps)
    (hat : jsTruthyS p.accessTokenSecretArn = false)
    (_het : jsTruthyS p.eventTarget = true) :
    (webServiceStack p).declared.any Res.isEventRes = false ∧
    webServiceStack { p with eventTarget := none } = webServiceStack p ∧
    (∀ q : WebServiceProps,
      (webServiceStack q).declared.any Res.isEventRes = true →
      jsTruthyS q.accessTokenSecretArn = true ∧ jsTruthyS q.eventTarget = true) := by
  refine ⟨?_, ?_, ?_⟩
  · rcases henv : p.env.isNone with _ | _
    · rcases hm : (p.application.data.isEmpty || p.environment.data.isEmpty ||
          p.service.data.isEmpty) with _ | _
      · rw [wss_service_only p henv hm hat]
        exact serviceConstructResources_no_event p
      · rw [wss_mand_err p henv hm]
        simp
    · rw [wss_env_err p henv]
      simp
  · unfold webServiceStack
    simp only [hat, Bool.false_eq_true, if_false]
    rfl
  · intro q hq
    rcases henv : q.env.isNone with _ | _
    · rcases hm : (q.application.data.isEmpty || q.environment.data.isEmpty ||
          q.service.data.isEmpty) with _ | _
      · rcases hatq : jsTruthyS q.accessTokenSecretArn with _ | _
        · rw [wss_service_only q henv hm hatq,
            serviceConstructResources_no_event q] at hq
          exact absurd hq (by simp)
        · rcases hsrc : (!jsTruthyS (q.sourceProps.bind SourcePropsCfg.owner) ||
              !jsTruthyS (q.sourceProps.bind SourcePropsCfg.repo) ||
              !jsTruthyS (q.sourceProps.bind SourcePropsCfg.branchOrRef)) with _ | _
          · rw [wss_full q henv hm hatq hsrc] at hq
            rcases hetq : jsTruthyS q.eventTarget with _ | _
            · rw [hetq] at hq
              simp only [Bool.false_eq_true, if_false, List.append_nil,
                List.any_append] at hq
              rw [serviceConstructResources_no_event q,
                pipelineConstructResources_no_event q] at hq
              exact absurd hq (by simp)
            · exact ⟨rfl, rfl⟩
          · rw [wss_src_err q henv hm hatq hsrc,
              serviceConstructResources_no_event q] at hq
            exact absurd hq (by simp)
      · rw [wss_mand_err q henv hm] at hq
        simp at hq
    · rw [wss_env_err q henv] at hq
      simp at hq

/-- Witness for `C10_events_need_pipeline` at `c10Props`. -/
theorem C10_events_need_pipeline_witness :
    (webServiceStack c10Props).declared.any Res.isEventRes = false ∧
    webServiceStack { c10Props with eventTarget := none } =
      webServiceStack c10Props :=
  ⟨(C10_events_need_pipeline c10Props (by decide) (by decide)).1,
   (C10_events_need_pipeline c10Props (by decide) (by decide)).2.1⟩

/-! ## Lemmas about the string primitives and the command semantics -/

theorem listPfx_append_self (a t : List Char) : listPfx a (a ++ t) = true := by
  induction a with
  | nil => rfl
  | cons c rest ih => simp [listPfx, ih]

theorem splitFirstSep_append_no_eq (l1 l2 : List Char)
    (h : l1.all (fun c => !(c = '=')) = true) :
    splitFirstSep ['='] (l1 ++ l2) =
      match splitFirstSep ['='] l2 with
      | none => none
      | some (a, b) => some (l1 ++ a, b) := by
  induction l1 with
  | nil =>
    simp only [List.nil_append]
    cases splitFirstSep ['='] l2 with
    | none => rfl
    | some ab => rfl
  | cons c rest ih =>
    simp only [List.all_cons, Bool.and_eq_true, Bool.not_eq_true',
      decide_eq_false_iff_not] at h
    have hpfx : listPfx ['='] (c :: (rest ++ l2)) = false := by
      simp [listPfx]
      intro hc
      exact h.1 hc.symm
    simp only [List.cons_append, splitFirstSep, hpfx, Bool.false_eq_true,
      if_false, List.append_eq]
    rw [ih h.2]
    cases splitFirstSep ['='] l2 with
    | none => rfl
    | some ab => rfl

theorem parseAssign_none_of_bad (lit : String) (sym : List Char)
    (hne : lit.data.all (fun c => !(c = '=')) = true)
    (hbad : lit.data.all isNameChar = false) :
    parseAssign ⟨lit.data ++ sym⟩ = none := by
  unfold parseAssign
  rw [show (⟨lit.data ++ sym⟩ : String).data = lit.data ++ sym from rfl,
    splitFirstSep_append_no_eq lit.data sym hne]
  cases h2 : splitFirstSep ['='] sym with
  | none => rfl
  | some ab =>
    simp only []
    rw [if_neg]
    simp only [isValidVarName, Bool.and_eq_true, List.all_append]
    rw [hbad]
    simp

theorem parseAssign_assign (nm : String) (rest : List Char)
    (hne : nm.data.all (fun c => !(c = '=')) = true)
    (hval : isValidVarName nm.data = true) :
    parseAssign ⟨nm.data ++ '=' :: rest⟩ = some (nm, ⟨rest⟩) := by
  unfold parseAssign
  rw [show (⟨nm.data ++ '=' :: rest⟩ : String).data = nm.data ++ '=' :: rest
      from rfl,
    splitFirstSep_append_no_eq nm.data ('=' :: rest) hne]
  have hsep : splitFirstSep ['='] ('=' :: rest) = some ([], rest) := by
    simp [splitFirstSep, listPfx]
  rw [hsep]
  simp only [List.append_nil]
  rw [if_pos hval]

theorem expandGo_nodollar_append (env : List (String × String))
    (l1 l2 : List Char) (h : l1.all (fun c => !(c = '$')) = true) :
    expandGo env none (l1 ++ l2) = l1 ++ expandGo env none l2 := by
  induction l1 with
  | nil => rfl
  | cons c rest ih =>
    simp only [List.all_cons, Bool.and_eq_true, Bool.not_eq_true',
      decide_eq_false_iff_not] at h
    simp only [List.cons_append, expandGo, List.append_eq]
    rw [if_neg h.1, ih h.2]

theorem expandGo_nodollar (env : List (String × String)) (l : List Char)
    (h : l.all (fun c => !(c = '$')) = true) :
    expandGo env none l = l := by
  induction l with
  | nil => rfl
  | cons c rest ih =>
    simp only [List.all_cons, Bool.and_eq_true, Bool.not_eq_true',
      decide_eq_false_iff_not] at h
    simp only [expandGo]
    rw [if_neg h.1, ih h.2]

theorem mkAppend_ne (lit : String) (sym : List Char) (t : String) (k : Nat)
    (hk : k ≤ lit.data.length) (h : lit.data.take k ≠ t.data.take k) :
    (⟨lit.data ++ sym⟩ : String) ≠ t := by
  intro he
  apply h
  have hd := congrArg (fun s : String => s.data.take k) he
  simp only [] at hd
  rw [List.take_append_of_le_length hk] at hd
  exact hd

theorem mkAppend_ne_mkAppend (r l1 l2 : List Char) (h : l1 ≠ l2) :
    (⟨r ++ l1⟩ : String) ≠ ⟨r ++ l2⟩ := by
  intro he
  apply h
  have hd := congrArg String.data he
  simp only [] at hd
  exact List.append_cancel_left hd

theorem lookupAssoc_cons_self (k : String) (v : String)
    (rest : List (String × String)) :
    lookupAssoc ((k, v) :: rest) k = some v := by
  simp [lookupAssoc]

theorem lookupAssoc_cons_ne (k' v : String) (rest : List (String × String))
    (k : String) (h : ¬(k' = k)) :
    lookupAssoc ((k', v) :: rest) k = lookupAssoc rest k := by
  simp [lookupAssoc, h]

theorem stepCmd_noop (ext : String → String) (st : ShSt) (cmd : String)
    (h1 : strPfx "cd " cmd = false) (h2 : strPfx "export " cmd = false)
    (h3 : (strPfx jqPatchPfx cmd && strInfix jqImageAssign cmd) = false)
    (h4 : strPfx "echo " cmd = false)
    (h5 : parseAssign cmd = none) : stepCmd ext st cmd = st := by
  unfold stepCmd
  rw [if_neg (by simp [h1]), if_neg (by simp [h2]), if_neg (by simp [h3]),
    if_neg (by simp [h4]), h5]

theorem stepCmd_cd (ext : String → String) (st : ShSt) (r : String) :
    stepCmd ext st ("cd " ++ r) = { st with cwd := r } := by
  unfold stepCmd
  have hp : strPfx "cd " ("cd " ++ r) = true := by
    unfold strPfx
    rw [String.data_append]
    exact listPfx_append_self _ _
  rw [if_pos hp]
  have hdrop : ("cd " ++ r).data.drop 3 = r.data := by
    rw [String.data_append]
    rfl
  rw [hdrop]

theorem joinPath_of_nonempty (r f : String) (hr : r.data.isEmpty = false) :
    joinPath r f = ⟨r.data ++ '/' :: f.data⟩ := by
  unfold joinPath
  rw [if_neg (by simp [hr])]
  apply String.ext
  simp [String.data_append]

/-! ## Evaluating the generated build specification -/

theorem jsIndexOf_cons (a : String) (rest : List String) (x : String) :
    jsIndexOf (a :: rest) x =
      if a = x then 0
      else if jsIndexOf rest x < 0 then -1 else jsIndexOf rest x + 1 := rfl

theorem jsIndexOf_step (a : String) (rest : List String) (x : String)
    (n : Int) (hn : jsIndexOf rest x = n) (h0 : 0 ≤ n) (h : ¬(a = x)) :
    jsIndexOf (a :: rest) x = n + 1 := by
  rw [jsIndexOf_cons, if_neg h, hn, if_neg (by omega)]

theorem jsIndexOf_head (x : String) (rest : List String) :
    jsIndexOf (x :: rest) x = 0 := by
  rw [jsIndexOf_cons, if_pos rfl]

theorem dockerBuildCmd_data (dfp : String) :
    dockerBuildCmd dfp =
      ⟨("docker build -t $ECR_REPO:$IMAGE_TAG -f ").data ++
        (dfp.data ++ (" .").data)⟩ := by
  apply String.ext
  simp [dockerBuildCmd, String.data_append]

theorem dockerBuildCmd_ne (dfp t : String) (k : Nat)
    (hk : k ≤ ("docker build -t $ECR_REPO:$IMAGE_TAG -f ").data.length)
    (h : ("docker build -t $ECR_REPO:$IMAGE_TAG -f ").data.take k ≠
      t.data.take k) :
    dockerBuildCmd dfp ≠ t := by
  rw [dockerBuildCmd_data]
  exact mkAppend_ne _ _ t k hk h

theorem nixpacksLineOf_data (p : WebServiceProps) :
    nixpacksLineOf p =
      ⟨("nixpacks build --out . . ").data ++
        ((nixOpt "--install-cmd" (p.buildProps.bind BuildPropsCfg.installcmd)).data ++
          ((" ").data ++
            ((nixOpt "--build-cmd" (p.buildProps.bind BuildPropsCfg.buildcmd)).data ++
              ((" ").data ++
                ((nixOpt "--start-cmd" (p.buildProps.bind BuildPropsCfg.startcmd)).data ++
                  (" > .nixpacks/Dockerfile").data)))))⟩ := by
  apply String.ext
  simp [nixpacksLineOf, String.data_append]

theorem nixpacksLineOf_ne (p : WebServiceProps) (t : String) (k : Nat)
    (hk : k ≤ ("nixpacks build --out . . ").data.length)
    (h : ("nixpacks build --out . . ").data.take k ≠ t.data.take k) :
    nixpacksLineOf p ≠ t := by
  rw [nixpacksLineOf_data]
  exact mkAppend_ne _ _ t k hk h

theorem parseAssign_dockerBuild (dfp : String) :
    parseAssign (dockerBuildCmd dfp) = none := by
  rw [dockerBuildCmd_data]
  exact parseAssign_none_of_bad "docker build -t $ECR_REPO:$IMAGE_TAG -f " _
    (by decide) (by decide)

theorem parseAssign_nixpacksLine (p : WebServiceProps) :
    parseAssign (nixpacksLineOf p) = none := by
  rw [nixpacksLineOf_data]
  exact parseAssign_none_of_bad "nixpacks build --out . . " _
    (by decide) (by decide)

theorem stepCmd_dockerBuild_noop (ext : String → String) (st : ShSt)
    (dfp : String) : stepCmd ext st (dockerBuildCmd dfp) = st :=
  stepCmd_noop ext st (dockerBuildCmd dfp) rfl rfl rfl rfl
    (parseAssign_dockerBuild dfp)

theorem stepCmd_nixpacks_noop (ext : String → String) (st : ShSt)
    (p : WebServiceProps) : stepCmd ext st (nixpacksLineOf p) = st :=
  stepCmd_noop ext st (nixpacksLineOf p) rfl rfl rfl rfl
    (parseAssign_nixpacksLine p)

theorem buildRun_from (w repoUri tag digest awsOut dfp : String) :
    runCmds (mkExt tag digest awsOut)
      ([exportTagCmd, "aws --version", ecrLoginCmd, dockerBuildCmd dfp,
        dockerPushCmd, exportDigestCmd] ++ artifactCmds)
      { cwd := w, env := [("ECR_REPO", repoUri)], files := [],
        taskdefImage := none, registered := [] } =
    mkBuildFinal w repoUri tag digest := by
  rw [show ([exportTagCmd, "aws --version", ecrLoginCmd, dockerBuildCmd dfp,
      dockerPushCmd, exportDigestCmd] ++ artifactCmds) =
      [exportTagCmd, "aws --version", ecrLoginCmd] ++
        dockerBuildCmd dfp :: ([dockerPushCmd, exportDigestCmd] ++ artifactCmds)
      from rfl]
  rw [runCmds, List.foldl_append, List.foldl_cons,
    stepCmd_dockerBuild_noop (mkExt tag digest awsOut) _ dfp]
  rfl

theorem buildRun_from_nix (w repoUri tag digest awsOut : String)
    (p : WebServiceProps) :
    runCmds (mkExt tag digest awsOut)
      (["curl -sSL https://nixpacks.com/install.sh | bash", nixpacksLineOf p,
        "ls -a", exportTagCmd, "aws --version", ecrLoginCmd,
        dockerBuildCmd ".nixpacks/Dockerfile", dockerPushCmd,
        exportDigestCmd] ++ artifactCmds)
      { cwd := w, env := [("ECR_REPO", repoUri)], files := [],
        taskdefImage := none, registered := [] } =
    mkBuildFinal w repoUri tag digest := by
  rw [show (["curl -sSL https://nixpacks.com/install.sh | bash",
      nixpacksLineOf p, "ls -a", exportTagCmd, "aws --version", ecrLoginCmd,
      dockerBuildCmd ".nixpacks/Dockerfile", dockerPushCmd, exportDigestCmd] ++
      artifactCmds) =
      ["curl -sSL https://nixpacks.com/install.sh | bash"] ++
        nixpacksLineOf p :: (["ls -a", exportTagCmd, "aws --version",
          ecrLoginCmd, dockerBuildCmd ".nixpacks/Dockerfile", dockerPushCmd,
          exportDigestCmd] ++ artifactCmds) from rfl]
  rw [runCmds, List.foldl_append, List.foldl_cons,
    stepCmd_nixpacks_noop (mkExt tag digest awsOut) _ p]
  rfl

theorem buildSpecOf_plain (p : WebServiceProps)
    (h : ¬(p.buildProps.bind BuildPropsCfg.buildSystem = some "Nixpacks")) :
    buildSpecOf p =
      { preBuild := (if (sanitizePath p.rootDir).data.isEmpty then []
          else ["cd " ++ sanitizePath p.rootDir]) ++
          [exportTagCmd, "aws --version", ecrLoginCmd],
        build := [dockerBuildCmd (dfpOf p), dockerPushCmd],
        postBuild := [exportDigestCmd] ++ artifactCmds,
        artifactFiles :=
          if (sanitizePath p.rootDir).data.isEmpty then
            ["imageUri.txt", "imageTag.txt", "imageDigest.txt"]
          else
            [sanitizePath p.rootDir ++ "/imageUri.txt",
             sanitizePath p.rootDir ++ "/imageTag.txt",
             sanitizePath p.rootDir ++ "/imageDigest.txt"] } := by
  have hbc : buildCommandsAndDockerfile p =
      ([exportTagCmd, "aws --version", ecrLoginCmd, dockerBuildCmd (dfpOf p),
        dockerPushCmd, exportDigestCmd], dfpOf p) := by
    unfold buildCommandsAndDockerfile
    rw [if_neg h]
  have hne1 : ¬(exportTagCmd = dockerBuildCmd (dfpOf p)) :=
    (dockerBuildCmd_ne (dfpOf p) exportTagCmd 1 (by decide) (by decide)).symm
  have hne2 : ¬(("aws --version" : String) = dockerBuildCmd (dfpOf p)) :=
    (dockerBuildCmd_ne (dfpOf p) "aws --version" 1 (by decide) (by decide)).symm
  have hne3 : ¬(ecrLoginCmd = dockerBuildCmd (dfpOf p)) :=
    (dockerBuildCmd_ne (dfpOf p) ecrLoginCmd 1 (by decide) (by decide)).symm
  have hne4 : ¬(dockerBuildCmd (dfpOf p) = dockerPushCmd) :=
    dockerBuildCmd_ne (dfpOf p) dockerPushCmd 8 (by decide) (by decide)
  have hne5 : ¬(dockerBuildCmd (dfpOf p) = exportDigestCmd) :=
    dockerBuildCmd_ne (dfpOf p) exportDigestCmd 1 (by decide) (by decide)
  have hib : jsIndexOf [exportTagCmd, "aws --version", ecrLoginCmd,
      dockerBuildCmd (dfpOf p), dockerPushCmd, exportDigestCmd]
      (dockerBuildCmd (dfpOf p)) = 3 := by
    have u0 := jsIndexOf_head (dockerBuildCmd (dfpOf p))
      [dockerPushCmd, exportDigestCmd]
    have u1 := jsIndexOf_step ecrLoginCmd _ _ 0 u0 (by norm_num) hne3
    have u2 := jsIndexOf_step "aws --version" _ _ _ u1 (by norm_num) hne2
    have u3 := jsIndexOf_step exportTagCmd _ _ _ u2 (by norm_num) hne1
    exact u3.trans (by norm_num)
  have hip : jsIndexOf [exportTagCmd, "aws --version", ecrLoginCmd,
      dockerBuildCmd (dfpOf p), dockerPushCmd, exportDigestCmd]
      dockerPushCmd = 4 := by
    have u0 := jsIndexOf_head dockerPushCmd [exportDigestCmd]
    have u1 := jsIndexOf_step (dockerBuildCmd (dfpOf p)) _ _ 0 u0 (by norm_num) hne4
    have u2 := jsIndexOf_step ecrLoginCmd _ _ _ u1 (by norm_num) (by decide)
    have u3 := jsIndexOf_step "aws --version" _ _ _ u2 (by norm_num) (by decide)
    have u4 := jsIndexOf_step exportTagCmd _ _ _ u3 (by norm_num) (by decide)
    exact u4.trans (by norm_num)
  have hid : jsIndexOf [exportTagCmd, "aws --version", ecrLoginCmd,
      dockerBuildCmd (dfpOf p), dockerPushCmd, exportDigestCmd]
      exportDigestCmd = 5 := by
    have u0 := jsIndexOf_head exportDigestCmd ([] : List String)
    have u1 := jsIndexOf_step dockerPushCmd _ _ 0 u0 (by norm_num) (by decide)
    have u2 := jsIndexOf_step (dockerBuildCmd (dfpOf p)) _ _ _ u1 (by norm_num) hne5
    have u3 := jsIndexOf_step ecrLoginCmd _ _ _ u2 (by norm_num) (by decide)
    have u4 := jsIndexOf_step "aws --version" _ _ _ u3 (by norm_num) (by decide)
    have u5 := jsIndexOf_step exportTagCmd _ _ _ u4 (by norm_num) (by decide)
    exact u5.trans (by norm_num)
  unfold buildSpecOf
  rw [hbc]
  simp only [hib, hip, hid]
  norm_num [jsSlice, jsSliceClampIdx]
  exact ⟨rfl, rfl, rfl⟩

theorem buildSpecOf_nix (p : WebServiceProps)
    (h : p.buildProps.bind BuildPropsCfg.buildSystem = some "Nixpacks") :
    buildSpecOf p =
      { preBuild := (if (sanitizePath p.rootDir).data.isEmpty then []
          else ["cd " ++ sanitizePath p.rootDir]) ++
          ["curl -sSL https://nixpacks.com/install.sh | bash",
           nixpacksLineOf p, "ls -a", exportTagCmd, "aws --version",
           ecrLoginCmd],
        build := [dockerBuildCmd ".nixpacks/Dockerfile", dockerPushCmd],
        postBuild := [exportDigestCmd] ++ artifactCmds,
        artifactFiles :=
          if (sanitizePath p.rootDir).data.isEmpty then
            ["imageUri.txt", "imageTag.txt", "imageDigest.txt"]
          else
            [sanitizePath p.rootDir ++ "/imageUri.txt",
             sanitizePath p.rootDir ++ "/imageTag.txt",
             sanitizePath p.rootDir ++ "/imageDigest.txt"] } := by
  have hbc : buildCommandsAndDockerfile p =
      (["curl -sSL https://nixpacks.com/install.sh | bash", nixpacksLineOf p,
        "ls -a", exportTagCmd, "aws --version", ecrLoginCmd,
        dockerBuildCmd ".nixpacks/Dockerfile", dockerPushCmd,
        exportDigestCmd], ".nixpacks/Dockerfile") := by
    unfold buildCommandsAndDockerfile
    rw [if_pos h]
  have hnx1 : ¬(nixpacksLineOf p = dockerBuildCmd ".nixpacks/Dockerfile") :=
    nixpacksLineOf_ne p (dockerBuildCmd ".nixpacks/Dockerfile") 1 (by decide)
      (by decide)
  have hnx2 : ¬(nixpacksLineOf p = dockerPushCmd) :=
    nixpacksLineOf_ne p dockerPushCmd 1 (by decide) (by decide)
  have hnx3 : ¬(nixpacksLineOf p = exportDigestCmd) :=
    nixpacksLineOf_ne p exportDigestCmd 1 (by decide) (by decide)
  have hib : jsIndexOf ["curl -sSL https://nixpacks.com/install.sh | bash",
      nixpacksLineOf p, "ls -a", exportTagCmd, "aws --version", ecrLoginCmd,
      dockerBuildCmd ".nixpacks/Dockerfile", dockerPushCmd, exportDigestCmd]
      (dockerBuildCmd ".nixpacks/Dockerfile") = 6 := by
    have u0 := jsIndexOf_head (dockerBuildCmd ".nixpacks/Dockerfile")
      [dockerPushCmd, exportDigestCmd]
    have u1 := jsIndexOf_step ecrLoginCmd _ _ 0 u0 (by norm_num) (by decide)
    have u2 := jsIndexOf_step "aws --version" _ _ _ u1 (by norm_num) (by decide)
    have u3 := jsIndexOf_step exportTagCmd _ _ _ u2 (by norm_num) (by decide)
    have u4 := jsIndexOf_step "ls -a" _ _ _ u3 (by norm_num) (by decide)
    have u5 := jsIndexOf_step (nixpacksLineOf p) _ _ _ u4 (by norm_num) hnx1
    have u6 := jsIndexOf_step "curl -sSL https://nixpacks.com/install.sh | bash"
      _ _ _ u5 (by norm_num) (by decide)
    exact u6.trans (by norm_num)
  have hip : jsIndexOf ["curl -sSL https://nixpacks.com/install.sh | bash",
      nixpacksLineOf p, "ls -a", exportTagCmd, "aws --version", ecrLoginCmd,
      dockerBuildCmd ".nixpacks/Dockerfile", dockerPushCmd, exportDigestCmd]
      dockerPushCmd = 7 := by
    have u0 := jsIndexOf_head dockerPushCmd [exportDigestCmd]
    have u1 := jsIndexOf_step (dockerBuildCmd ".nixpacks/Dockerfile") _ _
      0 u0 (by norm_num) (by decide)
    have u2 := jsIndexOf_step ecrLoginCmd _ _ _ u1 (by norm_num) (by decide)
    have u3 := jsIndexOf_step "aws --version" _ _ _ u2 (by norm_num) (by decide)
    have u4 := jsIndexOf_step exportTagCmd _ _ _ u3 (by norm_num) (by decide)
    have u5 := jsIndexOf_step "ls -a" _ _ _ u4 (by norm_num) (by decide)
    have u6 := jsIndexOf_step (nixpacksLineOf p) _ _ _ u5 (by norm_num) hnx2
    have u7 := jsIndexOf_step "curl -sSL https://nixpacks.com/install.sh | bash"
      _ _ _ u6 (by norm_num) (by decide)
    exact u7.trans (by norm_num)
  have hid : jsIndexOf ["curl -sSL https://nixpacks.com/install.sh | bash",
      nixpacksLineOf p, "ls -a", exportTagCmd, "aws --version", ecrLoginCmd,
      dockerBuildCmd ".nixpacks/Dockerfile", dockerPushCmd, exportDigestCmd]
      exportDigestCmd = 8 := by
    have u0 := jsIndexOf_head exportDigestCmd ([] : List String)
    have u1 := jsIndexOf_step dockerPushCmd _ _ 0 u0 (by norm_num) (by decide)
    have u2 := jsIndexOf_step (dockerBuildCmd ".nixpacks/Dockerfile") _ _
      _ u1 (by norm_num) (by decide)
    have u3 := jsIndexOf_step ecrLoginCmd _ _ _ u2 (by norm_num) (by decide)
    have u4 := jsIndexOf_step "aws --version" _ _ _ u3 (by norm_num) (by decide)
    have u5 := jsIndexOf_step exportTagCmd _ _ _ u4 (by norm_num) (by decide)
    have u6 := jsIndexOf_step "ls -a" _ _ _ u5 (by norm_num) (by decide)
    have u7 := jsIndexOf_step (nixpacksLineOf p) _ _ _ u6 (by norm_num) hnx3
    have u8 := jsIndexOf_step "curl -sSL https://nixpacks.com/install.sh | bash"
      _ _ _ u7 (by norm_num) (by decide)
    exact u8.trans (by norm_num)
  unfold buildSpecOf
  rw [hbc]
  simp only [hib, hip, hid]
  norm_num [jsSlice, jsSliceClampIdx]
  exact ⟨rfl, rfl, rfl⟩

/-! ## Evaluating the generated deploy specification -/

theorem stepCmd_cat_uri (ext : String → String) (st : ShSt) (P : String)
    (hP : P.data.all (fun c => !(c = '$')) = true) :
    stepCmd ext st ("IMAGE_URI=$(cat " ++ P ++ ")") =
      { st with env := ("IMAGE_URI",
          (lookupAssoc st.files (joinPath st.cwd P)).getD "") :: st.env } := by
  have hcmd : ("IMAGE_URI=$(cat " ++ P ++ ")") =
      (⟨"IMAGE_URI".data ++ '=' :: ("$(cat ".data ++ (P.data ++ [')']))⟩ : String) := by
    apply String.ext
    simp [String.data_append]
  have hpa : parseAssign ("IMAGE_URI=$(cat " ++ P ++ ")") =
      some ("IMAGE_URI", ⟨"$(cat ".data ++ (P.data ++ [')'])⟩) := by
    rw [hcmd]
    exact parseAssign_assign "IMAGE_URI" _ (by decide) (by decide)
  have h1 : strPfx "cd " ("IMAGE_URI=$(cat " ++ P ++ ")") = false := rfl
  have h2 : strPfx "export " ("IMAGE_URI=$(cat " ++ P ++ ")") = false := rfl
  have h3 : (strPfx jqPatchPfx ("IMAGE_URI=$(cat " ++ P ++ ")") &&
      strInfix jqImageAssign ("IMAGE_URI=$(cat " ++ P ++ ")")) = false := rfl
  have h4 : strPfx "echo " ("IMAGE_URI=$(cat " ++ P ++ ")") = false := rfl
  unfold stepCmd
  simp only [h1, h2, h3, h4, Bool.false_eq_true, if_false]
  rw [hpa]
  unfold doAssign
  have hlast : ((⟨"$(cat ".data ++ (P.data ++ [')'])⟩ : String).data.getLast? ==
      some ')') = true := by
    show (("$(cat ".data ++ (P.data ++ [')'])).getLast? == some ')') = true
    rw [show "$(cat ".data ++ (P.data ++ [')']) =
        ("$(cat ".data ++ P.data) ++ [')'] from by simp,
      List.getLast?_concat]
    rfl
  have hpfx2 : strPfx "$(" (⟨"$(cat ".data ++ (P.data ++ [')'])⟩ : String) = true := rfl
  simp only [hpfx2, hlast, Bool.and_self, if_true]
  have hinner : ((⟨"$(cat ".data ++ (P.data ++ [')'])⟩ : String).data.drop 2).dropLast =
      "cat ".data ++ P.data := by
    show (("$(cat ".data ++ (P.data ++ [')'])).drop 2).dropLast = _
    rw [show ("$(cat ".data ++ (P.data ++ [')'])).drop 2 =
        "cat ".data ++ (P.data ++ [')']) from rfl,
      show "cat ".data ++ (P.data ++ [')']) =
        ("cat ".data ++ P.data) ++ [')'] from by simp,
      List.dropLast_concat]
  rw [hinner]
  unfold runSubst
  rw [if_pos (show strPfx "cat " (⟨"cat ".data ++ P.data⟩ : String) = true from
    listPfx_append_self "cat ".data P.data)]
  rw [show (⟨"cat ".data ++ P.data⟩ : String).data.drop 4 = P.data from rfl,
    expandGo_nodollar st.env P.data hP]

theorem runDeploy_registered (ext : String → String)
    (cluster svcName family : String) (afiles : List (String × String))
    (P U : String)
    (hP : P.data.all (fun c => !(c = '$')) = true)
    (hlook : lookupAssoc afiles P = some U) :
    (runCmds ext
      (["echo \"Starting ECS deployment...\"",
        "IMAGE_URI=$(cat " ++ P ++ ")",
        "echo \"Deploying image: $IMAGE_URI\"",
        "CURRENT_TASK_DEF=$(aws ecs describe-task-definition --task-definition $ECS_TASKDEF --region $AWS_DEFAULT_REGION)",
        jqPatchCmd] ++
       ["NEW_TASK_DEF_ARN=$(aws ecs register-task-definition --cli-input-json file://taskdef.json --region $AWS_DEFAULT_REGION --query \"taskDefinition.taskDefinitionArn\" --output text)",
        "echo \"New task definition: $NEW_TASK_DEF_ARN\"",
        "aws ecs update-service --cluster $ECS_CLUSTER --service $ECS_SERVICE --deployment-configuration \"maximumPercent=200,minimumHealthyPercent=50,deploymentCircuitBreaker=\x7benable=true,rollback=true\x7d\" --region $AWS_DEFAULT_REGION",
        "aws ecs update-service --cluster $ECS_CLUSTER --service $ECS_SERVICE --task-definition $NEW_TASK_DEF_ARN --region $AWS_DEFAULT_REGION",
        "echo \"Monitoring deployment progress...\"",
        deployLoopCmd,
        deployWaitCmd,
        "echo \"ECS service deployed successfully\""])
      (initDeploySt afiles cluster svcName family)).registered = [some U] := by
  have h0 : stepCmd ext (initDeploySt afiles cluster svcName family)
      "echo \"Starting ECS deployment...\"" =
      initDeploySt afiles cluster svcName family := rfl
  have hcat := stepCmd_cat_uri ext (initDeploySt afiles cluster svcName family) P hP
  have hkey : (lookupAssoc (initDeploySt afiles cluster svcName family).files
      (joinPath (initDeploySt afiles cluster svcName family).cwd P)).getD "" = U := by
    show (lookupAssoc afiles (joinPath "" P)).getD "" = U
    rw [show joinPath "" P = P from rfl, hlook]
    rfl
  rw [hkey] at hcat
  have hpre : List.foldl (stepCmd ext) (initDeploySt afiles cluster svcName family)
      ["echo \"Starting ECS deployment...\"",
       "IMAGE_URI=$(cat " ++ P ++ ")",
       "echo \"Deploying image: $IMAGE_URI\"",
       "CURRENT_TASK_DEF=$(aws ecs describe-task-definition --task-definition $ECS_TASKDEF --region $AWS_DEFAULT_REGION)",
       jqPatchCmd] =
      List.foldl (stepCmd ext)
        { initDeploySt afiles cluster svcName family with
          env := ("IMAGE_URI", U) ::
            (initDeploySt afiles cluster svcName family).env }
        ["echo \"Deploying image: $IMAGE_URI\"",
         "CURRENT_TASK_DEF=$(aws ecs describe-task-definition --task-definition $ECS_TASKDEF --region $AWS_DEFAULT_REGION)",
         jqPatchCmd] := by
    rw [List.foldl_cons, h0, List.foldl_cons, hcat]
  rw [runCmds, List.foldl_append, hpre]
  rfl

theorem buildSpec_artifactFiles (p : WebServiceProps) :
    (buildSpecOf p).artifactFiles =
      if (sanitizePath p.rootDir).data.isEmpty then
        ["imageUri.txt", "imageTag.txt", "imageDigest.txt"]
      else
        [sanitizePath p.rootDir ++ "/imageUri.txt",
         sanitizePath p.rootDir ++ "/imageTag.txt",
         sanitizePath p.rootDir ++ "/imageDigest.txt"] := rfl

theorem deploySpec_preBuild (p : WebServiceProps) :
    (deploySpecOf p).preBuild =
      ["echo \"Starting ECS deployment...\"",
       "IMAGE_URI=$(cat " ++
         (if (sanitizePath p.rootDir).data.isEmpty then "imageUri.txt"
          else sanitizePath p.rootDir ++ "/imageUri.txt") ++ ")",
       "echo \"Deploying image: $IMAGE_URI\"",
       "CURRENT_TASK_DEF=$(aws ecs describe-task-definition --task-definition $ECS_TASKDEF --region $AWS_DEFAULT_REGION)",
       jqPatchCmd] := rfl

theorem deploySpec_build (p : WebServiceProps) :
    (deploySpecOf p).build =
      ["NEW_TASK_DEF_ARN=$(aws ecs register-task-definition --cli-input-json file://taskdef.json --region $AWS_DEFAULT_REGION --query \"taskDefinition.taskDefinitionArn\" --output text)",
       "echo \"New task definition: $NEW_TASK_DEF_ARN\"",
       "aws ecs update-service --cluster $ECS_CLUSTER --service $ECS_SERVICE --deployment-configuration \"maximumPercent=200,minimumHealthyPercent=50,deploymentCircuitBreaker=\x7benable=true,rollback=true\x7d\" --region $AWS_DEFAULT_REGION",
       "aws ecs update-service --cluster $ECS_CLUSTER --service $ECS_SERVICE --task-definition $NEW_TASK_DEF_ARN --region $AWS_DEFAULT_REGION",
       "echo \"Monitoring deployment progress...\"",
       deployLoopCmd,
       deployWaitCmd,
       "echo \"ECS service deployed successfully\""] := rfl

theorem buildCmdsCat_plain (p : WebServiceProps)
    (h : ¬(p.buildProps.bind BuildPropsCfg.buildSystem = some "Nixpacks")) :
    (buildSpecOf p).preBuild ++ (buildSpecOf p).build ++
      (buildSpecOf p).postBuild =
      (if (sanitizePath p.rootDir).data.isEmpty then []
       else ["cd " ++ sanitizePath p.rootDir]) ++
        ([exportTagCmd, "aws --version", ecrLoginCmd, dockerBuildCmd (dfpOf p),
          dockerPushCmd, exportDigestCmd] ++ artifactCmds) := by
  rw [buildSpecOf_plain p h]
  simp

theorem buildCmdsCat_nix (p : WebServiceProps)
    (h : p.buildProps.bind BuildPropsCfg.buildSystem = some "Nixpacks") :
    (buildSpecOf p).preBuild ++ (buildSpecOf p).build ++
      (buildSpecOf p).postBuild =
      (if (sanitizePath p.rootDir).data.isEmpty then []
       else ["cd " ++ sanitizePath p.rootDir]) ++
        (["curl -sSL https://nixpacks.com/install.sh | bash", nixpacksLineOf p,
          "ls -a", exportTagCmd, "aws --version", ecrLoginCmd,
          dockerBuildCmd ".nixpacks/Dockerfile", dockerPushCmd,
          exportDigestCmd] ++ artifactCmds) := by
  rw [buildSpecOf_nix p h]
  simp

theorem c4_tail_empty (p : WebServiceProps)
    (repoUri tag digest awsOut cluster svcName family : String)
    (her : (sanitizePath p.rootDir).data.isEmpty = true)
    (hrun : runBuildStage p repoUri (mkExt tag digest awsOut) =
      mkBuildFinal "" repoUri tag digest) :
    buildArtifacts p repoUri (mkExt tag digest awsOut) =
      [(imageUriArtifactPath p, (⟨repoUri.data ++ '@' :: digest.data⟩ : String)),
       (imageTagArtifactPath p, tag), (imageDigestArtifactPath p, digest)] ∧
    pipelineRegisteredImages p repoUri tag digest awsOut cluster svcName family =
      [some (⟨repoUri.data ++ '@' :: digest.data⟩ : String)] := by
  have haf : (buildSpecOf p).artifactFiles =
      ["imageUri.txt", "imageTag.txt", "imageDigest.txt"] := by
    rw [buildSpec_artifactFiles, if_pos her]
  have hart : buildArtifacts p repoUri (mkExt tag digest awsOut) =
      [("imageUri.txt", (⟨repoUri.data ++ '@' :: digest.data⟩ : String)),
       ("imageTag.txt", tag), ("imageDigest.txt", digest)] := by
    simp only [buildArtifacts]
    rw [hrun, haf]
    rfl
  refine ⟨?_, ?_⟩
  · rw [hart, show imageUriArtifactPath p = "imageUri.txt" from by
      unfold imageUriArtifactPath; rw [if_pos her],
      show imageTagArtifactPath p = "imageTag.txt" from by
      unfold imageTagArtifactPath; rw [if_pos her],
      show imageDigestArtifactPath p = "imageDigest.txt" from by
      unfold imageDigestArtifactPath; rw [if_pos her]]
  · simp only [pipelineRegisteredImages, runDeployStage]
    rw [hart, deploySpec_preBuild, deploySpec_build, if_pos her]
    exact runDeploy_registered (mkExt tag digest awsOut) cluster svcName family
      _ "imageUri.txt" _ (by decide) (lookupAssoc_cons_self _ _ _)

theorem c4_tail_nonempty (p : WebServiceProps)
    (repoUri tag digest awsOut cluster svcName family : String)
    (her : (sanitizePath p.rootDir).data.isEmpty = false)
    (hroot : (sanitizePath p.rootDir).data.all (fun c => !(c = '$')) = true)
    (hrun : runBuildStage p repoUri (mkExt tag digest awsOut) =
      mkBuildFinal (sanitizePath p.rootDir) repoUri tag digest) :
    buildArtifacts p repoUri (mkExt tag digest awsOut) =
      [(imageUriArtifactPath p, (⟨repoUri.data ++ '@' :: digest.data⟩ : String)),
       (imageTagArtifactPath p, tag), (imageDigestArtifactPath p, digest)] ∧
    pipelineRegisteredImages p repoUri tag digest awsOut cluster svcName family =
      [some (⟨repoUri.data ++ '@' :: digest.data⟩ : String)] := by
  have haf : (buildSpecOf p).artifactFiles =
      [sanitizePath p.rootDir ++ "/imageUri.txt",
       sanitizePath p.rootDir ++ "/imageTag.txt",
       sanitizePath p.rootDir ++ "/imageDigest.txt"] := by
    rw [buildSpec_artifactFiles, if_neg (by simp [her])]
  have hj1 := joinPath_of_nonempty (sanitizePath p.rootDir) "imageUri.txt" her
  have hj2 := joinPath_of_nonempty (sanitizePath p.rootDir) "imageTag.txt" her
  have hj3 := joinPath_of_nonempty (sanitizePath p.rootDir) "imageDigest.txt" her
  have hk1 : (sanitizePath p.rootDir ++ "/imageUri.txt" : String) =
      ⟨(sanitizePath p.rootDir).data ++ '/' :: "imageUri.txt".data⟩ := rfl
  have hk2 : (sanitizePath p.rootDir ++ "/imageTag.txt" : String) =
      ⟨(sanitizePath p.rootDir).data ++ '/' :: "imageTag.txt".data⟩ := rfl
  have hk3 : (sanitizePath p.rootDir ++ "/imageDigest.txt" : String) =
      ⟨(sanitizePath p.rootDir).data ++ '/' :: "imageDigest.txt".data⟩ := rfl
  have hlook1 : lookupAssoc
      (mkBuildFinal (sanitizePath p.rootDir) repoUri tag digest).files
      (sanitizePath p.rootDir ++ "/imageUri.txt") =
      some (⟨repoUri.data ++ '@' :: digest.data⟩ : String) := by
    show lookupAssoc
      [(joinPath (sanitizePath p.rootDir) "imageDigest.txt", digest),
       (joinPath (sanitizePath p.rootDir) "imageTag.txt", tag),
       (joinPath (sanitizePath p.rootDir) "imageUri.txt",
         (⟨repoUri.data ++ '@' :: digest.data⟩ : String))]
      (sanitizePath p.rootDir ++ "/imageUri.txt") = _
    rw [hj1, hj2, hj3, hk1]
    rw [lookupAssoc_cons_ne _ _ _ _
        (mkAppend_ne_mkAppend (sanitizePath p.rootDir).data _ _ (by decide)),
      lookupAssoc_cons_ne _ _ _ _
        (mkAppend_ne_mkAppend (sanitizePath p.rootDir).data _ _ (by decide)),
      lookupAssoc_cons_self]
  have hlook2 : lookupAssoc
      (mkBuildFinal (sanitizePath p.rootDir) repoUri tag digest).files
      (sanitizePath p.rootDir ++ "/imageTag.txt") = some tag := by
    show lookupAssoc
      [(joinPath (sanitizePath p.rootDir) "imageDigest.txt", digest),
       (joinPath (sanitizePath p.rootDir) "imageTag.txt", tag),
       (joinPath (sanitizePath p.rootDir) "imageUri.txt",
         (⟨repoUri.data ++ '@' :: digest.data⟩ : String))]
      (sanitizePath p.rootDir ++ "/imageTag.txt") = _
    rw [hj1, hj2, hj3, hk2]
    rw [lookupAssoc_cons_ne _ _ _ _
        (mkAppend_ne_mkAppend (sanitizePath p.rootDir).data _ _ (by decide)),
      lookupAssoc_cons_self]
  have hlook3 : lookupAssoc
      (mkBuildFinal (sanitizePath p.rootDir) repoUri tag digest).files
      (sanitizePath p.rootDir ++ "/imageDigest.txt") = some digest := by
    show lookupAssoc
      [(joinPath (sanitizePath p.rootDir) "imageDigest.txt", digest),
       (joinPath (sanitizePath p.rootDir) "imageTag.txt", tag),
       (joinPath (sanitizePath p.rootDir) "imageUri.txt",
         (⟨repoUri.data ++ '@' :: digest.data⟩ : String))]
      (sanitizePath p.rootDir ++ "/imageDigest.txt") = _
    rw [hj1, hj2, hj3, hk3]
    rw [lookupAssoc_cons_self]
  have hart : buildArtifacts p repoUri (mkExt tag digest awsOut) =
      [(sanitizePath p.rootDir ++ "/imageUri.txt",
        (⟨repoUri.data ++ '@' :: digest.data⟩ : String)),
       (sanitizePath p.rootDir ++ "/imageTag.txt", tag),
       (sanitizePath p.rootDir ++ "/imageDigest.txt", digest)] := by
    simp only [buildArtifacts]
    rw [hrun, haf]
    simp only [List.map_cons, List.map_nil]
    rw [hlook1, hlook2, hlook3]
    rfl
  have hP : ((sanitizePath p.rootDir ++ "/imageUri.txt" : String).data.all
      (fun c => !(c = '$'))) = true := by
    show (((sanitizePath p.rootDir).data ++ "/imageUri.txt".data).all
      (fun c => !(c = '$'))) = true
    rw [List.all_append, hroot]
    rfl
  refine ⟨?_, ?_⟩
  · rw [hart, show imageUriArtifactPath p =
        sanitizePath p.rootDir ++ "/imageUri.txt" from by
      unfold imageUriArtifactPath; rw [if_neg (by simp [her])],
      show imageTagArtifactPath p =
        sanitizePath p.rootDir ++ "/imageTag.txt" from by
      unfold imageTagArtifactPath; rw [if_neg (by simp [her])],
      show imageDigestArtifactPath p =
        sanitizePath p.rootDir ++ "/imageDigest.txt" from by
      unfold imageDigestArtifactPath; rw [if_neg (by simp [her])]]
  · simp only [pipelineRegisteredImages, runDeployStage]
    rw [hart, deploySpec_preBuild, deploySpec_build, if_neg (by simp [her])]
    exact runDeploy_registered (mkExt tag digest awsOut) cluster svcName family
      _ (sanitizePath p.rootDir ++ "/imageUri.txt") _ hP
      (lookupAssoc_cons_self _ _ _)

theorem pipeline_core (p : WebServiceProps)
    (repoUri tag digest awsOut cluster svcName family : String)
    (hroot : (sanitizePath p.rootDir).data.all (fun c => !(c = '$')) = true) :
    buildArtifacts p repoUri (mkExt tag digest awsOut) =
      [(imageUriArtifactPath p, (⟨repoUri.data ++ '@' :: digest.data⟩ : String)),
       (imageTagArtifactPath p, tag), (imageDigestArtifactPath p, digest)] ∧
    pipelineRegisteredImages p repoUri tag digest awsOut cluster svcName family =
      [some (⟨repoUri.data ++ '@' :: digest.data⟩ : String)] := by
  by_cases hN : p.buildProps.bind BuildPropsCfg.buildSystem = some "Nixpacks"
  · rcases her : (sanitizePath p.rootDir).data.isEmpty with _ | _
    · have hrun : runBuildStage p repoUri (mkExt tag digest awsOut) =
          mkBuildFinal (sanitizePath p.rootDir) repoUri tag digest := by
        simp only [runBuildStage]
        rw [buildCmdsCat_nix p hN, if_neg (by simp [her]),
          List.singleton_append]
        rw [runCmds, List.foldl_cons,
          stepCmd_cd (mkExt tag digest awsOut) _ (sanitizePath p.rootDir)]
        exact buildRun_from_nix (sanitizePath p.rootDir) repoUri tag digest
          awsOut p
      exact c4_tail_nonempty p repoUri tag digest awsOut cluster svcName family
        her hroot hrun
    · have hrun : runBuildStage p repoUri (mkExt tag digest awsOut) =
          mkBuildFinal "" repoUri tag digest := by
        simp only [runBuildStage]
        rw [buildCmdsCat_nix p hN, if_pos her, List.nil_append]
        exact buildRun_from_nix "" repoUri tag digest awsOut p
      exact c4_tail_empty p repoUri tag digest awsOut cluster svcName family
        her hrun
  · rcases her : (sanitizePath p.rootDir).data.isEmpty with _ | _
    · have hrun : runBuildStage p repoUri (mkExt tag digest awsOut) =
          mkBuildFinal (sanitizePath p.rootDir) repoUri tag digest := by
        simp only [runBuildStage]
        rw [buildCmdsCat_plain p hN, if_neg (by simp [her]),
          List.singleton_append]
        rw [runCmds, List.foldl_cons,
          stepCmd_cd (mkExt tag digest awsOut) _ (sanitizePath p.rootDir)]
        exact buildRun_from (sanitizePath p.rootDir) repoUri tag digest awsOut
          (dfpOf p)
      exact c4_tail_nonempty p repoUri tag digest awsOut cluster svcName family
        her hroot hrun
    · have hrun : runBuildStage p repoUri (mkExt tag digest awsOut) =
          mkBuildFinal "" repoUri tag digest := by
        simp only [runBuildStage]
        rw [buildCmdsCat_plain p hN, if_pos her, List.nil_append]
        exact buildRun_from "" repoUri tag digest awsOut (dfpOf p)
      exact c4_tail_empty p repoUri tag digest awsOut cluster svcName family
        her hrun

/-- C4: for every configuration (any build system, any sanitized root
directory without `$`), one pipeline execution registers exactly one task
revision and the image reference placed into it is the digest-pinned URI
`repository@digest` read from the build stage's `imageUri.txt` artifact,
which the build stage always writes as `$ECR_REPO@$IMAGE_DIGEST`; the
registered image never depends on the mutable timestamp tag - runs with
different tags register the identical image reference. -/
theorem C4_deploy_image_digest_pinned (p : WebServiceProps)
    (repoUri tag digest awsOut cluster svcName family : String)
    (hroot : (sanitizePath p.rootDir).data.all (fun c => !(c = '$')) = true) :
    pipelineRegisteredImages p repoUri tag digest awsOut cluster svcName
      family = [some (repoUri ++ "@" ++ digest)] ∧
    lookupAssoc (buildArtifacts p repoUri (mkExt tag digest awsOut))
      (imageUriArtifactPath p) = some (repoUri ++ "@" ++ digest) ∧
    (∀ t2 : String,
      pipelineRegisteredImages p repoUri t2 digest awsOut cluster svcName
        family =
      pipelineRegisteredImages p repoUri tag digest awsOut cluster svcName
        family) := by
  have hu : (⟨repoUri.data ++ '@' :: digest.data⟩ : String) =
      repoUri ++ "@" ++ digest := by
    apply String.ext
    simp [String.data_append]
  obtain ⟨hart, hreg⟩ := pipeline_core p repoUri tag digest awsOut cluster
    svcName family hroot
  refine ⟨by rw [hreg, hu], ?_, ?_⟩
  · rw [hart, lookupAssoc_cons_self, hu]
  · intro t2
    obtain ⟨-, hreg2⟩ := pipeline_core p repoUri t2 digest awsOut cluster
      svcName family hroot
    rw [hreg, hreg2]

/-- Witness for `C4_deploy_image_digest_pinned` at a concrete configuration
(default build system, no root directory). -/
theorem C4_deploy_image_digest_pinned_witness :
    pipelineRegisteredImages {} "123456789012.dkr.ecr.eu-central-1.amazonaws.com/shop-api-prod-repo"
      "20240101120000" "sha256:abcd" "ok" "shop-api-prod-cluster" "api-service"
      "task-family" =
      [some ("123456789012.dkr.ecr.eu-central-1.amazonaws.com/shop-api-prod-repo" ++
        "@" ++ "sha256:abcd")] :=
  (C4_deploy_image_digest_pinned {} "123456789012.dkr.ecr.eu-central-1.amazonaws.com/shop-api-prod-repo"
    "20240101120000" "sha256:abcd" "ok" "shop-api-prod-cluster" "api-service"
    "task-family" (by decide)).1

/-! ## Claim C9: deploy-stage failure handling and bounded polling -/

theorem obsSteady_false_of_failed (o : EcsObs)
    (h : o.status = DeployStatus.failed) : obsSteady o = false := by
  simp [obsSteady, h]

theorem monitorLoopAux_reach_failed (obs : Nat → EcsObs) (fuel i j : Nat)
    (hj : i ≤ j) (hlt : j < i + fuel)
    (hpre : ∀ k, i ≤ k → k < j → obsSteady (obs k) = false ∧
      (obs k).status ≠ DeployStatus.failed)
    (hf : (obs j).status = DeployStatus.failed) :
    (monitorLoopAux obs fuel i).1 = LoopOutcome.hardFail := by
  induction fuel generalizing i with
  | zero => omega
  | succ fuel ih =>
    by_cases hij : i = j
    · subst hij
      simp [monitorLoopAux, obsSteady_false_of_failed _ hf, hf]
    · have hik : i < j := Nat.lt_of_le_of_ne hj hij
      obtain ⟨hst, hnf⟩ := hpre i (Nat.le_refl i) hik
      simp only [monitorLoopAux, hst, Bool.false_eq_true, if_false]
      rw [if_neg hnf]
      exact ih (i + 1) hik (by omega)
        (fun k hk1 hk2 => hpre k (by omega) hk2)

theorem monitorLoopAux_exhaust (obs : Nat → EcsObs) (fuel i : Nat)
    (h : ∀ k, i ≤ k → k < i + fuel → obsSteady (obs k) = false ∧
      (obs k).status ≠ DeployStatus.failed) :
    monitorLoopAux obs fuel i = (LoopOutcome.exhausted, 30 * fuel) := by
  induction fuel generalizing i with
  | zero => simp [monitorLoopAux]
  | succ fuel ih =>
    obtain ⟨hst, hnf⟩ := h i (Nat.le_refl i) (by omega)
    simp only [monitorLoopAux, hst, Bool.false_eq_true, if_false]
    rw [if_neg hnf, ih (i + 1) (fun k hk1 hk2 => h k (by omega) (by omega))]
    simp
    ring

theorem monitorLoopAux_sleep_le (obs : Nat → EcsObs) (fuel i : Nat) :
    (monitorLoopAux obs fuel i).2 ≤ 30 * fuel := by
  induction fuel generalizing i with
  | zero => simp [monitorLoopAux]
  | succ fuel ih =>
    simp only [monitorLoopAux]
    split
    · simp
    · split
      · simp
      · have := ih (i + 1)
        simp only []
        omega

theorem monitorLoopAux_congr (obs obs2 : Nat → EcsObs) (fuel i : Nat)
    (h : ∀ k, i ≤ k → k < i + fuel → obs k = obs2 k) :
    monitorLoopAux obs fuel i = monitorLoopAux obs2 fuel i := by
  induction fuel generalizing i with
  | zero => rfl
  | succ fuel ih =>
    have hi : obs i = obs2 i := h i (Nat.le_refl i) (by omega)
    simp only [monitorLoopAux, hi]
    rw [ih (i + 1) (fun k hk1 hk2 => h k (by omega) (by omega))]

/-- C9: the generated deploy stage (whose build phase contains the bounded
monitoring loop and the bounded stability wait) treats a FAILED deployment
status observed before steady state as a hard failure with non-zero exit;
with no failure and no steady state within the 30 polls the loop exhausts,
the stage still exits 0, and the timeout warning is logged exactly when the
final wait does not reach stability; polling is bounded: at most 900
seconds are slept and only observations 1..30 influence the loop. -/
theorem C9_deploy_monitoring (obs : Nat → EcsObs) (w : Bool) :
    (∀ q : WebServiceProps, deployLoopCmd ∈ (deploySpecOf q).build ∧
      deployWaitCmd ∈ (deploySpecOf q).build) ∧
    ((∃ j, 1 ≤ j ∧ j ≤ 30 ∧ (obs j).status = DeployStatus.failed ∧
        ∀ k, 1 ≤ k → k < j → obsSteady (obs k) = false ∧
          (obs k).status ≠ DeployStatus.failed) →
      (deployStageResult obs w).exitCode = 1) ∧
    ((∀ k, 1 ≤ k → k ≤ 30 → obsSteady (obs k) = false ∧
        (obs k).status ≠ DeployStatus.failed) →
      (monitorLoop obs).1 = LoopOutcome.exhausted ∧
      (deployStageResult obs w).exitCode = 0 ∧
      (deployStageResult obs w).timedOutWarning = !w) ∧
    (monitorLoop obs).2 ≤ 900 ∧
    (∀ obs2 : Nat → EcsObs, (∀ k, 1 ≤ k → k ≤ 30 → obs k = obs2 k) →
      monitorLoop obs = monitorLoop obs2) := by
  refine ⟨?_, ?_, ?_, ?_, ?_⟩
  · intro q
    exact ⟨by simp [deploySpecOf], by simp [deploySpecOf]⟩
  · rintro ⟨j, hj1, hj30, hf, hpre⟩
    have hfail : (monitorLoop obs).1 = LoopOutcome.hardFail :=
      monitorLoopAux_reach_failed obs 30 1 j hj1 (by omega) hpre hf
    simp [deployStageResult, hfail]
  · intro hall
    have hex : monitorLoopAux obs 30 1 = (LoopOutcome.exhausted, 30 * 30) :=
      monitorLoopAux_exhaust obs 30 1
        (fun k hk1 hk2 => hall k hk1 (by omega))
    refine ⟨by simp [monitorLoop, hex], ?_, ?_⟩ <;>
      simp [deployStageResult, monitorLoop, hex]
  · have := monitorLoopAux_sleep_le obs 30 1
    simpa [monitorLoop] using this
  · intro obs2 h2
    exact monitorLoopAux_congr obs obs2 30 1 (fun k hk1 hk2 => h2 k hk1 (by omega))

/-- Witness for `C9_deploy_monitoring`: with a FAILED status at the first
poll the stage exits 1. -/
theorem C9_deploy_monitoring_witness :
    (deployStageResult obsAllFailed true).exitCode = 1 :=
  (C9_deploy_monitoring obsAllFailed true).2.1
    ⟨1, Nat.le_refl 1, by omega, rfl, fun k hk1 hk2 => (by omega : False).elim⟩

end CdkWebService
